import Mathlib

/-! # SIM card emulation (`telephony/sim_card.c`)

A shallow embedding of the SIM card emulation of the telephony modem: the
PIN/PUK authentication state machine, the elementary file store with its read
operations, the GET RESPONSE descriptor encoder and the `+CRSM` command
dispatcher, followed by theorems about them.

Conventions of the embedding.

* A C string is represented by its content, the characters before the
  terminating NUL, as a `String`; `strcmp(a, b) == 0` is equality of contents.
* A `char buf[n+1]` field whose last byte is never written after the zero
  initialisation of the static registry holds a string of at most `n`
  characters; the record carries that bound.
* `int` is `Int` (no operation of this file overflows on the inputs of
  interest; `++pin_retries` is modelled without wrap-around), `byte_t` is
  `Fin 256`, `unsigned short` is `Fin 65536`; integer promotions are explicit.
  The values that `sscanf` stores through `%d` are reduced to the 32 bits of
  an `int` (`store_int`), so every command argument satisfies `int_range`.
* The `length` of a dedicated file is the number of bytes of its `data`; it
  is kept as the C `int`, and the theorems on the file store assume it is not
  negative where the sign matters.
* A `cbytes_t` pointer is the function giving the byte at each offset from it.
* A function that writes a response into `out_buff` and returns a pointer to it
  is a function returning the text.
-/

namespace SimCard

/-! ## Constants -/

def A_SIM_PIN_SIZE : Nat := 4

def A_SIM_PUK_SIZE : Nat := 8

def SIM_FILE_RECORD_ABSOLUTE_MODE : Int := 4

def SIM_RESPONSE_NORMAL_ENDING : String := "+CRSM: 144,0"

def SIM_RESPONSE_EXECUTION_ERROR : String := "+CRSM: 100,0"

def SIM_RESPONSE_WRONG_LENGTH : String := "+CRSM: 103,0"

def SIM_RESPONSE_FUNCTION_NOT_SUPPORT : String := "+CRSM: 106,129"

def SIM_RESPONSE_FILE_NOT_FOUND : String := "+CRSM: 106,130"

def SIM_RESPONSE_RECORD_NOT_FOUND : String := "+CRSM: 106,131"

def SIM_RESPONSE_INCORRECT_PARAMETERS : String := "+CRSM: 106,134"

/-- Modelled from the spec: the command codes `A_SIM_CMD_*` are declared in
`sim_card.h`; the wire format gives 192 for GET_RESPONSE. -/
def A_SIM_CMD_GET_RESPONSE : Int := 192

/-- Modelled from the spec: 176 is READ_BINARY in the wire format. -/
def A_SIM_CMD_READ_BINARY : Int := 176

/-- Modelled from the spec: 178 is READ_RECORD in the wire format. -/
def A_SIM_CMD_READ_RECORD : Int := 178

/-! ## Data model -/

/-- Modelled from the spec: the enumeration `ASimStatus` is declared in
`sim_card.h`. The four states the card logic names are constructors of their
own; `A_SIM_STATUS_OTHER` stands for any further enumerator of the externally
supplied enumeration. -/
inductive ASimStatus where
  | A_SIM_STATUS_ABSENT
  | A_SIM_STATUS_PIN
  | A_SIM_STATUS_PUK
  | A_SIM_STATUS_READY
  | A_SIM_STATUS_OTHER (tag : Nat)
deriving DecidableEq, Repr

open ASimStatus

/-- The C type `byte_t` (`unsigned char`). -/
abbrev byte_t := Fin 256

/-- The C type `unsigned short`. -/
abbrev ushort_t := Fin 65536

/-- The C type `cbytes_t`: a pointer to bytes, as the byte found at each
offset from the pointer. -/
abbrev cbytes_t := Int → byte_t

/-- The enumeration `SimFileType`. -/
inductive SimFileType where
  | SIM_FILE_DM
  | SIM_FILE_DF
  | SIM_FILE_EF_DEDICATED
  | SIM_FILE_EF_LINEAR
  | SIM_FILE_EF_CYCLIC
deriving DecidableEq, Repr

open SimFileType

def SIM_FILE_READ_ONLY : Nat := 1

def SIM_FILE_NEED_PIN : Nat := 2

/-- The union `SimFileRec`: the common head (`type`, `id`, `flags`) followed by
the fields of the dedicated view (`data`, `length`) and of the linear/cyclic
view (`rec_count`, `rec_len`, `records`). The code reads a view only after
testing `type`, so the two views are kept as independent fields. The `next`
link is the list structure of the file store. -/
structure SimFileRec where
  type : SimFileType
  id : ushort_t
  flags : ushort_t
  data : cbytes_t
  length : Int
  rec_count : byte_t
  rec_len : byte_t
  records : cbytes_t

/-- The record `ASimCardRec`. `pin` and `puk` are the contents of the
`char pin[A_SIM_PIN_SIZE+1]` and `char puk[A_SIM_PUK_SIZE+1]` buffers, `efs`
is the linked list of files. -/
structure ASimCardRec where
  status : ASimStatus
  pin : String
  puk : String
  pin_retries : Int
  port : Int
  instance_id : Int
  efs : List SimFileRec
  pin_fits : pin.length ≤ A_SIM_PIN_SIZE
  puk_fits : puk.length ≤ A_SIM_PUK_SIZE

/-! ## C library -/

/-- The content of `dst` after `strncpy(dst, src, n)` when `dst[n]` is NUL:
the first `n` characters of `src` (a shorter `src` is padded with NULs). -/
def strncpy (src : String) (n : Nat) : String :=
  String.mk (src.data.take n)

/-! ## Authentication state machine -/

/-- The function `asimcard_create`: `slot` is the entry `_s_card[instance_id]`
of the registry before the call, the result is that entry after it. -/
def asimcard_create (slot : ASimCardRec) (port instance_id : Int) : ASimCardRec :=
  { slot with
    status := A_SIM_STATUS_READY
    pin_retries := 0
    pin := strncpy "0000" (A_SIM_PIN_SIZE + 1)
    puk := strncpy "12345678" (A_SIM_PUK_SIZE + 1)
    port := port
    instance_id := instance_id
    pin_fits := by decide
    puk_fits := by decide }

def asimcard_get_status (sim : ASimCardRec) : ASimStatus :=
  sim.status

def asimcard_set_status (sim : ASimCardRec) (status : ASimStatus) : ASimCardRec :=
  { sim with status := status }

def asimcard_get_pin (sim : ASimCardRec) : String :=
  sim.pin

def asimcard_get_puk (sim : ASimCardRec) : String :=
  sim.puk

def asimcard_set_pin (sim : ASimCardRec) (pin : String) : ASimCardRec :=
  { sim with
    pin := strncpy pin A_SIM_PIN_SIZE
    pin_retries := 0
    pin_fits := List.length_take_le A_SIM_PIN_SIZE pin.data }

def asimcard_set_puk (sim : ASimCardRec) (puk : String) : ASimCardRec :=
  { sim with
    puk := strncpy puk A_SIM_PUK_SIZE
    pin_retries := 0
    puk_fits := List.length_take_le A_SIM_PUK_SIZE puk.data }

/-- The function `asimcard_check_pin`: the card after the call and the
returned `int`. -/
def asimcard_check_pin (sim : ASimCardRec) (pin : String) : ASimCardRec × Int :=
  if sim.status ≠ A_SIM_STATUS_PIN ∧ sim.status ≠ A_SIM_STATUS_READY then
    (sim, 0)
  else if sim.pin = pin then
    ({ sim with status := A_SIM_STATUS_READY, pin_retries := 0 }, 1)
  else if sim.status ≠ A_SIM_STATUS_READY then
    if sim.pin_retries + 1 = 3 then
      ({ sim with pin_retries := sim.pin_retries + 1, status := A_SIM_STATUS_PUK }, 0)
    else
      ({ sim with pin_retries := sim.pin_retries + 1 }, 0)
  else
    (sim, 0)

/-- The function `asimcard_check_puk`: the card after the call and the
returned `int`. -/
def asimcard_check_puk (sim : ASimCardRec) (puk pin : String) : ASimCardRec × Int :=
  if sim.status ≠ A_SIM_STATUS_PUK then
    (sim, 0)
  else if sim.puk = puk then
    ({ sim with
       puk := strncpy puk A_SIM_PUK_SIZE
       pin := strncpy pin A_SIM_PIN_SIZE
       status := A_SIM_STATUS_READY
       pin_retries := 0
       puk_fits := List.length_take_le A_SIM_PUK_SIZE puk.data
       pin_fits := List.length_take_le A_SIM_PIN_SIZE pin.data }, 1)
  else if sim.pin_retries + 1 = 6 then
    ({ sim with pin_retries := sim.pin_retries + 1, status := A_SIM_STATUS_ABSENT }, 0)
  else
    ({ sim with pin_retries := sim.pin_retries + 1 }, 0)

/-! ## Hex codec -/

/-- Modelled from the spec: the lowercase hex digits of the hex codec. -/
def hexdigits : List Char :=
  "0123456789abcdef".data

/-- Modelled from the spec: `gsm_hex_from_byte` is part of the hex codec
(`gsm.c`), a deterministic byte to lowercase hex conversion. The two
characters are the digits of bits 4..7 and of bits 0..3 of `val`. -/
def gsm_hex_from_byte (val : Int) : String :=
  String.mk [hexdigits.getD ((val / 16) % 16).toNat '0', hexdigits.getD (val % 16).toNat '0']

/-- Modelled from the spec: `gsm_hex_from_short` of the hex codec writes the
high byte then the low byte of a 16-bit value (big-endian). -/
def gsm_hex_from_short (val : Int) : String :=
  gsm_hex_from_byte (val / 256) ++ gsm_hex_from_byte val

/-- Modelled from the spec: `gsm_hex_from_bytes` of the hex codec writes the
two hex characters of each of the `nbytes` bytes at `bytes`, in order; a count
that is not positive writes nothing. -/
def gsm_hex_from_bytes (bytes : cbytes_t) (nbytes : Int) : String :=
  String.join ((List.range nbytes.toNat).map
    (fun nn => gsm_hex_from_byte ((bytes (nn : Int)).val : Int)))

/-! ## Elementary file store -/

/-- The function `asimcard_ef_read_dedicated`, called with a destination that
is not NULL: the returned count and the text written at `dst`. -/
def asimcard_ef_read_dedicated (ef : Option SimFileRec) : Int × String :=
  match ef with
  | none => (-1, "")
  | some file =>
    if file.type ≠ SIM_FILE_EF_DEDICATED then (-1, "")
    else (file.length, gsm_hex_from_bytes file.data file.length)

/-- The function `asimcard_ef_read_linear`, called with a destination that is
not NULL: the returned count and the text written at `dst`. -/
def asimcard_ef_read_linear (ef : Option SimFileRec) (record_id : byte_t) : Int × String :=
  match ef with
  | none => (-1, "")
  | some file =>
    if file.type ≠ SIM_FILE_EF_LINEAR then (-1, "")
    else if (file.rec_count.val : Int) < (record_id.val : Int) then (-1, "")
    else
      let record : cbytes_t := fun off =>
        file.records ((((record_id.val : Int) - 1) * (file.rec_len.val : Int)) + off)
      ((file.rec_len.val : Int), gsm_hex_from_bytes record (file.rec_len.val : Int))

/-- The function `asimcard_ef_find`: the first file of the list whose id,
promoted to `int`, equals `id`. -/
def asimcard_ef_find (sim : ASimCardRec) (id : Int) : Option SimFileRec :=
  sim.efs.find? (fun ef => decide ((ef.id.val : Int) = id))

/-- The narrowing conversion of an `int` argument to a `byte_t` parameter. -/
def int_to_byte (v : Int) : byte_t :=
  ⟨(v % 256).toNat, by omega⟩

/-! ## Command handlers -/

def asimcard_io_read_binary (sim : ASimCardRec) (id p1 p2 p3 : Int) : String :=
  match asimcard_ef_find sim id with
  | none => SIM_RESPONSE_FILE_NOT_FOUND
  | some ef =>
    if p1 ≠ 0 ∨ p2 ≠ 0 then SIM_RESPONSE_INCORRECT_PARAMETERS
    else if ef.type ≠ SIM_FILE_EF_DEDICATED then SIM_RESPONSE_FUNCTION_NOT_SUPPORT
    else if ef.length < p3 then SIM_RESPONSE_WRONG_LENGTH
    else
      let out := SIM_RESPONSE_NORMAL_ENDING ++ ","
      let r := asimcard_ef_read_dedicated (some ef)
      if r.1 < 0 then SIM_RESPONSE_EXECUTION_ERROR
      else out ++ r.2

def asimcard_io_read_record (sim : ASimCardRec) (id p1 p2 p3 : Int) : String :=
  match asimcard_ef_find sim id with
  | none => SIM_RESPONSE_FILE_NOT_FOUND
  | some ef =>
    if p2 ≠ SIM_FILE_RECORD_ABSOLUTE_MODE ∨ p1 ≤ 0 then SIM_RESPONSE_INCORRECT_PARAMETERS
    else if ef.type ≠ SIM_FILE_EF_LINEAR then SIM_RESPONSE_FUNCTION_NOT_SUPPORT
    else if (ef.rec_count.val : Int) < p1 then SIM_RESPONSE_RECORD_NOT_FOUND
    else if (ef.rec_len.val : Int) < p3 then SIM_RESPONSE_WRONG_LENGTH
    else
      let out := SIM_RESPONSE_NORMAL_ENDING ++ ","
      let r := asimcard_ef_read_linear (some ef) (int_to_byte p1)
      if r.1 < 0 then SIM_RESPONSE_EXECUTION_ERROR
      else out ++ r.2

/-- The function `sim_file_to_hex`, called with a destination that is not
NULL: the returned count and the characters written at `dst`. -/
def sim_file_to_hex (file : SimFileRec) : Int × String :=
  match file.type with
  | SIM_FILE_DM => (-1, "")
  | SIM_FILE_DF => (-1, "")
  | type =>
    let file_size : Int :=
      if type = SIM_FILE_EF_DEDICATED then file.length
      else (file.rec_count.val : Int) * (file.rec_len.val : Int)
    let perm : Int :=
      if file.flags.val &&& SIM_FILE_READ_ONLY ≠ 0 then
        (if file.flags.val &&& SIM_FILE_NEED_PIN ≠ 0 then 0x1a else 0x0a)
      else
        (if file.flags.val &&& SIM_FILE_NEED_PIN ≠ 0 then 0x11 else 0x00)
    let b14 : String :=
      if type = SIM_FILE_EF_DEDICATED then "00"
      else if type = SIM_FILE_EF_LINEAR then "01"
      else "03"
    let b15 : String :=
      if type = SIM_FILE_EF_DEDICATED then "00"
      else gsm_hex_from_byte (file.rec_len.val : Int)
    (30, "0000" ++ gsm_hex_from_short file_size ++ gsm_hex_from_short (file.id.val : Int)
          ++ "04" ++ "00" ++ gsm_hex_from_byte perm ++ "a0aa" ++ "00" ++ "02" ++ b14 ++ b15)

def asimcard_io_get_response (sim : ASimCardRec) (id p1 p2 p3 : Int) : String :=
  match asimcard_ef_find sim id with
  | none => SIM_RESPONSE_FILE_NOT_FOUND
  | some ef =>
    if p1 ≠ 0 ∨ p2 ≠ 0 ∨ p3 ≠ 15 then SIM_RESPONSE_INCORRECT_PARAMETERS
    else
      let out := SIM_RESPONSE_NORMAL_ENDING ++ ","
      let r := sim_file_to_hex ef
      if r.1 < 0 then SIM_RESPONSE_EXECUTION_ERROR
      else out ++ String.mk (r.2.data.take r.1.toNat)

/-! ## Command dispatcher -/

/-- The table `answers` of `asimcard_io`, without its `{ NULL, NULL }` end
marker. -/
def answers : List (String × String) :=
  [
    ("+CRSM=192,28436,0,0,15", "+CRSM: 144,0,000000146f1404001aa0aa01020000"),
    ("+CRSM=176,28436,0,0,20", "+CRSM: 144,0,416e64726f6964ffffffffffffffffffffffffff"),
    ("+CRSM=192,28433,0,0,15", "+CRSM: 144,0,000000016f11040011a0aa01020000"),
    ("+CRSM=176,28433,0,0,1", "+CRSM: 144,0,55"),
    ("+CRSM=192,12258,0,0,15", "+CRSM: 144,0,0000000a2fe204000fa0aa01020000"),
    ("+CRSM=176,12258,0,0,10", "+CRSM: 144,0,98101430121181157002"),
    ("+CRSM=192,28435,0,0,15", "+CRSM: 144,0,000000016f13040011a0aa01020000"),
    ("+CRSM=176,28435,0,0,1", "+CRSM: 144,0,55"),
    ("+CRSM=192,28472,0,0,15", "+CRSM: 144,0,0000000f6f3804001aa0aa01020000"),
    ("+CRSM=176,28472,0,0,15", "+CRSM: 144,0,ff30ffff3f003c0f000c0000f0ff00"),
    ("+CRSM=192,28617,0,0,15", "+CRSM: 144,0,000000086fc9040011a0aa01020104"),
    ("+CRSM=178,28617,1,4,4", "+CRSM: 144,0,01000000"),
    ("+CRSM=192,28618,0,0,15", "+CRSM: 144,0,0000000a6fca040011a0aa01020105"),
    ("+CRSM=178,28618,1,4,5", "+CRSM: 144,0,0000000000"),
    ("+CRSM=192,28589,0,0,15", "+CRSM: 144,0,000000046fad04000aa0aa01020000"),
    ("+CRSM=176,28589,0,0,4", "+CRSM: 144,0,00000003"),
    ("+CRSM=192,20256,1,4,10", "+CRSM: 144,0,000000644f20040000000005020114"),
    ("+CRSM=178,20256,1,4,20", "+CRSM: 144,0,010808214f0200000016ffffffffffffffffffff"),
    ("+CRSM=176,20226,0,0,22", "+CRSM: 144,0,080802030016AAAA800285428142814281528002AAAAFF000000FF000000FF"),
    ("+CRSM=176,20226,0,22,9", "+CRSM: 144,0,0808ff03a59999a5c3ff"),
    ("+CRSM=192,28438,0,0,15", "+CRSM: 144,0,000000026f1604001aa0aa01020000"),
    ("+CRSM=176,28438,0,0,2", "+CRSM: 144,0,0233"),
    ("+CRSM=192,28486,0,0,15", "+CRSM: 144,0,000000116f4604000aa0aa01020000"),
    ("+CRSM=176,28486,0,0,17", "+CRSM: 144,0,01416e64726f6964ffffffffffffffffff"),
    ("+CRSM=192,28621,0,0,15", "+CRSM: 144,0,0000000d6fcd04000aa0aa01020000"),
    ("+CRSM=176,28621,0,0,13", "+CRSM: 144,0,a30b800932643164269fffffff"),
    ("+CRSM=192,28613,0,0,15", "+CRSM: 144,0,000000f06fc504000aa0aa01020118"),
    ("+CRSM=178,28613,1,4,24", "+CRSM: 144,0,43058441aa890affffffffffffffffffffffffffffffffff"),
    ("+CRSM=192,28480,0,0,15", "+CRSM: 144,0,000000806f40040011a0aa01020120"),
    ("+CRSM=178,28480,1,4,32", "+CRSM: 144,0,ffffffffffffffffffffffffffffffffffff07815155258131f5ffffffffffff"),
    ("+CRSM=192,28615,0,0,15", "+CRSM: 144,0,000000406fc7040011a0aa01020120"),
    ("+CRSM=178,28615,1,4,32", "+CRSM: 144,0,566f6963656d61696cffffffffffffffffff07915155125740f9ffffffffffff"),
    ("+CRSM=192,28474,0,0,15", "+CRSM: 144,0,000000806f3a040011a0aa01020120"),
    ("+CRSM=178,28474,1,4,32", "+CRSM: 144,0,4d6f7a696c6c61ffffffffffffffffffffff07815155258102f1ffffffffffff"),
    ("+CRSM=178,28474,2,4,32", "+CRSM: 144,0,800053006100df00ea9ec3ffffffffffffff07815155258102f2ffffffffffff"),
    ("+CRSM=178,28474,3,4,32", "+CRSM: 144,0,8106e04669726520ebffffffffffffffffff07815155258102f3ffffffffffff"),
    ("+CRSM=178,28474,4,4,32", "+CRSM: 144,0,82079e804875616e6720c3ffffffffffffff07815155258102f4ffffffffffff"),
    ("+CRSM=192,28485,0,0,15", "+CRSM: 144,0,000000066f4504000fa0aa01020000"),
    ("+CRSM=176,28485,0,0,6", "+CRSM: 144,0,b000fffff000"),
    ("+CRSM=192,28496,0,0,15", "+CRSM: 144,0,000000106f5004000fa0aa01020000"),
    ("+CRSM=176,28496,0,0,16", "+CRSM: 144,0,b002c000ffffc001c001fffff002ff00")
  ]

/-- The C library predicate `isspace` in the C locale. -/
def isspace (c : Char) : Bool :=
  c = ' ' || c = '\t' || c = '\n' || c = '\x0b' || c = '\x0c' || c = '\r'

/-- The C library predicate `isdigit`. -/
def isdigit (c : Char) : Bool :=
  decide ('0'.toNat ≤ c.toNat ∧ c.toNat ≤ '9'.toNat)

/-- The decimal digits at the head of the input, accumulated onto `acc`, and
the input left after them. -/
def scan_digits (acc : Nat) : List Char → Nat × List Char
  | [] => (acc, [])
  | c :: rest =>
    if isdigit c then scan_digits (10 * acc + (c.toNat - '0'.toNat)) rest
    else (acc, c :: rest)

/-- The decimal integer that `%d` of the C library `sscanf` reads at the head
of the input: white space is skipped, an optional sign is read, then at least
one decimal digit is required. The result is the value written there and the
input left, or `none` on a matching failure. -/
def scan_decimal (input : List Char) : Option (Int × List Char) :=
  let s := input.dropWhile isspace
  let signed : Bool × List Char :=
    match s with
    | '-' :: t => (true, t)
    | '+' :: t => (false, t)
    | _ => (false, s)
  match signed.2 with
  | [] => none
  | c :: t =>
    if isdigit c then
      let r := scan_digits 0 (c :: t)
      some (if signed.1 then -(r.1 : Int) else (r.1 : Int), r.2)
    else none

/-- The values of the C type `int` (32 bits). -/
abbrev int_range (v : Int) : Prop :=
  -2147483648 ≤ v ∧ v ≤ 2147483647

/-- The value that `%d` stores in its `int` argument for the decimal value
`v`. A value of the range of `int` is stored as it is. Outside that range the
C library converts the digits as `strtol` does, limited to the 64-bit `long`,
and stores the low 32 bits in the `int`. -/
def store_int (v : Int) : Int :=
  let l : Int :=
    if v < -9223372036854775808 then -9223372036854775808
    else if 9223372036854775807 < v then 9223372036854775807
    else v
  (l + 2147483648) % 4294967296 - 2147483648

/-- The conversion `%d` of the C library `sscanf` into an `int`: the value
stored and the input left, or `none` on a matching failure. -/
def scan_d (input : List Char) : Option (Int × List Char) :=
  match scan_decimal input with
  | some (v, rest) => some (store_int v, rest)
  | none => none

/-- An ordinary character of a `sscanf` format: the next input character has
to be that character. -/
def scan_char (c : Char) : List Char → Option (List Char)
  | [] => none
  | d :: rest => if d = c then some rest else none

/-- The call `sscanf(cmd, "+CRSM=%d,%d,%d,%d,%d", ...)`: the five values
stored in `int command, id, p1, p2, p3` when the call returns 5, `none` when
it returns less. -/
def sscanf_crsm (cmd : String) : Option (Int × Int × Int × Int × Int) := do
  let s0 ← if cmd.data.take 6 = "+CRSM=".data then some (cmd.data.drop 6) else none
  let (command, s1) ← scan_d s0
  let s2 ← scan_char ',' s1
  let (id, s3) ← scan_d s2
  let s4 ← scan_char ',' s3
  let (p1, s5) ← scan_d s4
  let s6 ← scan_char ',' s5
  let (p2, s7) ← scan_d s6
  let s8 ← scan_char ',' s7
  let (p3, _) ← scan_d s8
  pure (command, id, p1, p2, p3)

/-- The conversion `%d` of the C library `printf`. -/
def fmt_d (v : Int) : String :=
  toString v

/-- The text left in a buffer of `size` characters by `snprintf`: at most
`size - 1` characters of the formatted text. -/
def snprintf (size : Nat) (text : String) : String :=
  String.mk (text.data.take (size - 1))

/-- The loop of `asimcard_io` over the table: the answer of the first entry
whose command is `cmd`, or the INCORRECT_PARAMETERS response. -/
def answers_lookup : List (String × String) → String → String
  | [], _ => SIM_RESPONSE_INCORRECT_PARAMETERS
  | entry :: rest, cmd => if entry.1 = cmd then entry.2 else answers_lookup rest cmd

/-- The function `asimcard_io` (`handle_command`). `dynamic_records` is the
compile-time switch `ENABLE_DYNAMIC_RECORDS` (0 in the source as built). The
result is `none` when the assertion on the `+CRSM=` start of `cmd` fails. -/
def asimcard_io (dynamic_records : Bool) (sim : ASimCardRec) (cmd : String) : Option String :=
  if cmd.data.take 6 ≠ "+CRSM=".data then none
  else
    match (if dynamic_records then sscanf_crsm cmd else none) with
    | some (command, id, p1, p2, p3) =>
      if command = A_SIM_CMD_GET_RESPONSE then
        some (asimcard_io_get_response sim id p1 p2 p3)
      else if command = A_SIM_CMD_READ_BINARY then
        some (asimcard_io_read_binary sim id p1 p2 p3)
      else if command = A_SIM_CMD_READ_RECORD then
        some (asimcard_io_read_record sim id p1 p2 p3)
      else
        some SIM_RESPONSE_FUNCTION_NOT_SUPPORT
    | none =>
      if "+CRSM=178,28480,1,4,32" = cmd then
        some (snprintf 256
          ("+CRSM: 144,0,ffffffffffffffffffffffffffffffffffff0781515525"
            ++ fmt_d (Int.tmod (Int.tdiv sim.port 1000) 10)
            ++ fmt_d (sim.instance_id + 1)
            ++ fmt_d (Int.tmod (Int.tdiv sim.port 10) 10)
            ++ fmt_d (Int.tmod (Int.tdiv sim.port 100) 10)
            ++ "f"
            ++ fmt_d (Int.tmod sim.port 10)
            ++ "ffffffffffff"))
      else
        some (answers_lookup answers cmd)

/-! ## Sequences of authentication calls -/

/-- The card after consecutive `asimcard_check_pin` calls, one per candidate,
in order. -/
def check_pin_seq (sim : ASimCardRec) : List String → ASimCardRec
  | [] => sim
  | pin :: rest => check_pin_seq (asimcard_check_pin sim pin).1 rest

/-- The card after consecutive `asimcard_check_puk` calls, one per pair of a
candidate PUK and a new PIN, in order. -/
def check_puk_seq (sim : ASimCardRec) : List (String × String) → ASimCardRec
  | [] => sim
  | c :: rest => check_puk_seq (asimcard_check_puk sim c.1 c.2).1 rest

/-- A call of the authentication surface: `check_pin` or `check_puk` with its
arguments. -/
inductive AuthCall where
  | pin (candidate : String)
  | puk (candidate new_pin : String)

/-- The effect of one authentication call. -/
def auth_call (sim : ASimCardRec) : AuthCall → ASimCardRec × Int
  | AuthCall.pin candidate => asimcard_check_pin sim candidate
  | AuthCall.puk candidate new_pin => asimcard_check_puk sim candidate new_pin

/-- The card after a sequence of authentication calls and the values they
returned, in order. -/
def auth_calls (sim : ASimCardRec) : List AuthCall → ASimCardRec × List Int
  | [] => (sim, [])
  | c :: rest =>
    let r := auth_call sim c
    let rs := auth_calls r.1 rest
    (rs.1, r.2 :: rs.2)

/-- A registry entry before any call: empty pin and puk, no files, every
integer 0. -/
def blank_slot : ASimCardRec :=
  { status := A_SIM_STATUS_ABSENT, pin := "", puk := "", pin_retries := 0, port := 0,
    instance_id := 0, efs := [], pin_fits := by decide, puk_fits := by decide }

/-! ## Cards and checks used in the statements -/

/-- A card put back into PIN by `set_status` after a PIN lockout: created,
set to PIN, locked by three wrong PINs, set to PIN again. Its counter is 3. -/
def relocked_pin_card : ASimCardRec :=
  asimcard_set_status
    (check_pin_seq (asimcard_set_status (asimcard_create blank_slot 5554 0) A_SIM_STATUS_PIN)
      ["1111", "2222", "3333"])
    A_SIM_STATUS_PIN

/-- A card put back into PUK by `set_status` after a PUK lockout: created, set
to PUK, blocked by six wrong PUKs (ABSENT), set to PUK again. Its counter
is 6. -/
def relocked_puk_card : ASimCardRec :=
  asimcard_set_status
    (check_puk_seq (asimcard_set_status (asimcard_create blank_slot 5554 0) A_SIM_STATUS_PUK)
      [("00000001", "1111"), ("00000002", "1111"), ("00000003", "1111"),
       ("00000004", "1111"), ("00000005", "1111"), ("00000006", "1111")])
    A_SIM_STATUS_PUK

/-- The card of scenario 4: created, put into PIN, PIN set to "1234". -/
def scenario_pin_card : ASimCardRec :=
  asimcard_set_pin (asimcard_set_status (asimcard_create blank_slot 5554 0) A_SIM_STATUS_PIN)
    "1234"

/-- A store with a Linear file, id 28474, and a Dedicated file, id 28589,
holding the 4 bytes 00 00 00 03. -/
def sample_card : ASimCardRec :=
  { asimcard_create blank_slot 5554 0 with
    efs := [{ type := SIM_FILE_EF_LINEAR, id := 28474, flags := 2, data := fun _ => 0,
              length := 0, rec_count := 4, rec_len := 32, records := fun _ => 255 },
            { type := SIM_FILE_EF_DEDICATED, id := 28589, flags := 1,
              data := fun off => if off = 3 then 3 else 0,
              length := 4, rec_count := 0, rec_len := 0, records := fun _ => 0 }] }

/-- The check made on a table entry: read as five integers its command is not
a READ_BINARY (176) with p1 or p2 different from 0, unless it is the entry
"+CRSM=176,20226,0,22,9". -/
def entry_read_binary_plain (entry : String × String) : Bool :=
  match sscanf_crsm entry.1 with
  | some (command, _, p1, p2, _) =>
    decide (command ≠ 176 ∨ (p1 = 0 ∧ p2 = 0) ∨ entry.1 = "+CRSM=176,20226,0,22,9")
  | none => true

/-- A store with one Cyclic file, id 20256, of 2 records of 4 bytes. -/
def cyclic_card : ASimCardRec :=
  { asimcard_create blank_slot 5554 0 with
    efs := [{ type := SIM_FILE_EF_CYCLIC, id := 20256, flags := 0, data := fun _ => 0,
              length := 0, rec_count := 2, rec_len := 4, records := fun _ => 255 }] }

/-- Two hex digits, high digit first, of a value below 256: the digits are
those of `Nat.digitChar`, lowercase. -/
def hex2 (n : Nat) : String :=
  String.mk [Nat.digitChar (n / 16 % 16), Nat.digitChar (n % 16)]

/-- Four hex digits, big-endian, of a value below 65536. -/
def hex4 (n : Nat) : String :=
  String.mk [Nat.digitChar (n / 4096 % 16), Nat.digitChar (n / 256 % 16),
    Nat.digitChar (n / 16 % 16), Nat.digitChar (n % 16)]

/-- The file size of the descriptor: the length of a Dedicated file, the
record count times the record length of a record file. -/
def descriptor_size (file : SimFileRec) : Nat :=
  if file.type = SIM_FILE_EF_DEDICATED then file.length.toNat
  else file.rec_count.val * file.rec_len.val

/-- The access byte of the descriptor, from the two flags. -/
def access_byte (read_only need_pin : Bool) : String :=
  match read_only, need_pin with
  | false, false => "00"
  | true, false => "0a"
  | false, true => "11"
  | true, true => "1a"

/-- The structure byte of the descriptor. -/
def structure_byte (type : SimFileType) : String :=
  if type = SIM_FILE_EF_DEDICATED then "00"
  else if type = SIM_FILE_EF_LINEAR then "01"
  else "03"

/-- The record length byte of the descriptor. -/
def record_length_byte (file : SimFileRec) : String :=
  if file.type = SIM_FILE_EF_DEDICATED then "00" else hex2 file.rec_len.val

/-- The descriptor as the specification lays it out: 15 bytes in hex.
READ_ONLY is bit 0 of the flags, NEED_PIN is bit 1. -/
def descriptor_layout (file : SimFileRec) : String :=
  "0000" ++ hex4 (descriptor_size file) ++ hex4 file.id.val ++ "04" ++ "00"
    ++ access_byte (file.flags.val.testBit 0) (file.flags.val.testBit 1)
    ++ "a0aa" ++ "00" ++ "02" ++ structure_byte file.type ++ record_length_byte file

/-- A Linear file of 4 records of 32 bytes that needs the PIN, id 28480. -/
def msisdn_file : SimFileRec :=
  { type := SIM_FILE_EF_LINEAR, id := 28480, flags := 2, data := fun _ => 0,
    length := 0, rec_count := 4, rec_len := 32, records := fun _ => 255 }

/-- A read-only Dedicated file of 10 bytes, id 12258, with flag bits above
the two known ones set. -/
def iccid_file : SimFileRec :=
  { type := SIM_FILE_EF_DEDICATED, id := 12258, flags := 0xfffd, data := fun _ => 0,
    length := 10, rec_count := 0, rec_len := 0, records := fun _ => 0 }

/-- The command text "+CRSM=<command>,<file_id>,<p1>,<p2>,<p3>" of five
integers, each written in decimal as by `%d`. -/
def crsm_text (command id p1 p2 p3 : Int) : String :=
  "+CRSM=" ++ fmt_d command ++ "," ++ fmt_d id ++ "," ++ fmt_d p1 ++ "," ++ fmt_d p2
    ++ "," ++ fmt_d p3

/-- The value read by `scan_digits` from a run of digits, starting from
`acc`. -/
def digits_value (acc : Nat) (ds : List Char) : Nat :=
  ds.foldl (fun a c => 10 * a + (c.toNat - '0'.toNat)) acc

/-- The hex characters of a byte string with the two digits of every byte
swapped (swapped-nibble BCD). -/
def swap_nibbles : List Char → List Char
  | a :: b :: rest => b :: a :: swap_nibbles rest
  | rest => rest

/-- The dialling number carried by an MSISDN record response: the 6 number
bytes (12 hex characters after "+CRSM: 144,0,", the 18 bytes of the alpha
identifier, the length byte and the TON/NPI byte), nibble-swapped, without the
filler digit 'f'. -/
def msisdn_number (response : String) : String :=
  String.mk ((swap_nibbles ((response.data.drop 53).take 12)).filter (fun c => c != 'f'))

/-- The four decimal digits of a port, zero-padded. -/
def port_digits (port : Nat) : String :=
  String.mk [Nat.digitChar (port / 1000 % 10), Nat.digitChar (port / 100 % 10),
    Nat.digitChar (port / 10 % 10), Nat.digitChar (port % 10)]

/-- The card created for port 5554 as the first device. -/
def first_card : ASimCardRec :=
  asimcard_create blank_slot 5554 0

/-- A store with a Dedicated file of 122 bytes, id 20226, and a Linear file of
one record of 255 bytes, id 28613. -/
def long_files_card : ASimCardRec :=
  { asimcard_create blank_slot 5554 0 with
    efs := [{ type := SIM_FILE_EF_DEDICATED, id := 20226, flags := 0, data := fun _ => 0,
              length := 122, rec_count := 0, rec_len := 0, records := fun _ => 0 },
            { type := SIM_FILE_EF_LINEAR, id := 28613, flags := 0, data := fun _ => 0,
              length := 0, rec_count := 1, rec_len := 255, records := fun _ => 255 }] }

/-- The characters of an MSISDN record response: the fixed start, the digit
`c1`, the text `second` printed for instance_id + 1, the digits `c3` and `c4`,
the filler 'f', the digit `c5` and the fixed end. -/
def msisdn_chars (c1 : Char) (second : String) (c3 c4 c5 : Char) : List Char :=
  "+CRSM: 144,0,ffffffffffffffffffffffffffffffffffff0781515525".data
    ++ (c1 :: (second.data ++ (c3 :: c4 :: 'f' :: c5 :: "ffffffffffff".data)))

/-- The card created for port 15554 as the first device. -/
def far_port_card : ASimCardRec :=
  asimcard_create blank_slot 15554 0

/-! ## Theorems: authentication state machine -/

theorem strncpy_of_length_le (src : String) (n : Nat) (h : src.length ≤ n) :
    strncpy src n = src := by
  cases src with
  | mk l =>
    have h1 : l.length ≤ n := h
    show String.mk (l.take n) = String.mk l
    rw [List.take_of_length_le h1]

/-- C1: `check_pin` returns 1 (true) exactly when the status is PIN or READY
and the candidate equals the stored PIN, and returns 0 otherwise; when it
returns 1 the card is left READY with `pin_retries` 0 and the same pin and
puk. -/
theorem check_pin_true_iff (sim : ASimCardRec) (pin : String) :
    ((asimcard_check_pin sim pin).2 = 1 ↔
      ((sim.status = A_SIM_STATUS_PIN ∨ sim.status = A_SIM_STATUS_READY) ∧ pin = sim.pin)) ∧
    ((asimcard_check_pin sim pin).2 = 1 ∨ (asimcard_check_pin sim pin).2 = 0) ∧
    ((asimcard_check_pin sim pin).2 = 1 →
      (asimcard_check_pin sim pin).1.status = A_SIM_STATUS_READY ∧
      (asimcard_check_pin sim pin).1.pin_retries = 0 ∧
      (asimcard_check_pin sim pin).1.pin = sim.pin ∧
      (asimcard_check_pin sim pin).1.puk = sim.puk) := by
  have h01 : ¬ ((0 : Int) = 1) := by decide
  unfold asimcard_check_pin
  by_cases hg : sim.status ≠ A_SIM_STATUS_PIN ∧ sim.status ≠ A_SIM_STATUS_READY
  · rw [if_pos hg]
    refine ⟨⟨fun h => absurd h h01, ?_⟩, Or.inr rfl, fun h => absurd h h01⟩
    rintro ⟨h1 | h1, _⟩
    · exact absurd h1 hg.1
    · exact absurd h1 hg.2
  · rw [if_neg hg]
    have hs : sim.status = A_SIM_STATUS_PIN ∨ sim.status = A_SIM_STATUS_READY := by
      by_contra hn
      exact hg ⟨fun h => hn (Or.inl h), fun h => hn (Or.inr h)⟩
    by_cases he : sim.pin = pin
    · rw [if_pos he]
      exact ⟨⟨fun _ => ⟨hs, he.symm⟩, fun _ => rfl⟩, Or.inl rfl, fun _ => ⟨rfl, rfl, rfl, rfl⟩⟩
    · rw [if_neg he]
      have hne : pin ≠ sim.pin := fun h => he h.symm
      by_cases hr : sim.status ≠ A_SIM_STATUS_READY
      · rw [if_pos hr]
        by_cases h3 : sim.pin_retries + 1 = 3
        · rw [if_pos h3]
          exact ⟨⟨fun h => absurd h h01, fun h => absurd h.2 hne⟩, Or.inr rfl,
            fun h => absurd h h01⟩
        · rw [if_neg h3]
          exact ⟨⟨fun h => absurd h h01, fun h => absurd h.2 hne⟩, Or.inr rfl,
            fun h => absurd h h01⟩
      · rw [if_neg hr]
        exact ⟨⟨fun h => absurd h h01, fun h => absurd h.2 hne⟩, Or.inr rfl,
          fun h => absurd h h01⟩

/-- A call of `check_pin` outside PIN and READY changes nothing and returns 0. -/
theorem check_pin_gated (sim : ASimCardRec) (pin : String)
    (h1 : sim.status ≠ A_SIM_STATUS_PIN) (h2 : sim.status ≠ A_SIM_STATUS_READY) :
    asimcard_check_pin sim pin = (sim, 0) := by
  unfold asimcard_check_pin
  rw [if_pos ⟨h1, h2⟩]

/-- A call of `check_puk` outside PUK changes nothing and returns 0. -/
theorem check_puk_gated (sim : ASimCardRec) (puk pin : String)
    (h : sim.status ≠ A_SIM_STATUS_PUK) :
    asimcard_check_puk sim puk pin = (sim, 0) := by
  unfold asimcard_check_puk
  rw [if_pos h]

/-- A wrong candidate in PIN: the counter is incremented, the status becomes
PUK when the new counter is 3, the stored PIN is kept. -/
theorem check_pin_wrong_step (sim : ASimCardRec) (pin : String)
    (hs : sim.status = A_SIM_STATUS_PIN) (hne : pin ≠ sim.pin) :
    (asimcard_check_pin sim pin).1.pin = sim.pin ∧
    (asimcard_check_pin sim pin).1.pin_retries = sim.pin_retries + 1 ∧
    (asimcard_check_pin sim pin).1.status =
      (if sim.pin_retries + 1 = 3 then A_SIM_STATUS_PUK else A_SIM_STATUS_PIN) := by
  have hne2 : ¬ (sim.pin = pin) := fun h => hne h.symm
  unfold asimcard_check_pin
  rw [if_neg (by rw [hs]; decide), if_neg hne2, if_pos (by rw [hs]; decide)]
  by_cases h3 : sim.pin_retries + 1 = 3
  · rw [if_pos h3, if_pos h3]
    exact ⟨rfl, rfl, rfl⟩
  · rw [if_neg h3, if_neg h3]
    exact ⟨rfl, rfl, hs⟩

/-- A wrong candidate in PUK: the counter is incremented, the status becomes
ABSENT when the new counter is 6, the stored PUK is kept. -/
theorem check_puk_wrong_step (sim : ASimCardRec) (puk pin : String)
    (hs : sim.status = A_SIM_STATUS_PUK) (hne : puk ≠ sim.puk) :
    (asimcard_check_puk sim puk pin).1.puk = sim.puk ∧
    (asimcard_check_puk sim puk pin).1.pin_retries = sim.pin_retries + 1 ∧
    (asimcard_check_puk sim puk pin).1.status =
      (if sim.pin_retries + 1 = 6 then A_SIM_STATUS_ABSENT else A_SIM_STATUS_PUK) := by
  have hne2 : ¬ (sim.puk = puk) := fun h => hne h.symm
  unfold asimcard_check_puk
  rw [if_neg (fun h => h hs), if_neg hne2]
  by_cases h6 : sim.pin_retries + 1 = 6
  · rw [if_pos h6, if_pos h6]
    exact ⟨rfl, rfl, rfl⟩
  · rw [if_neg h6, if_neg h6]
    exact ⟨rfl, rfl, hs⟩

/-- Calls of `check_pin` on a card that is neither in PIN nor in READY leave
it as it is. -/
theorem check_pin_seq_gated (cands : List String) (sim : ASimCardRec)
    (h1 : sim.status ≠ A_SIM_STATUS_PIN) (h2 : sim.status ≠ A_SIM_STATUS_READY) :
    check_pin_seq sim cands = sim := by
  induction cands with
  | nil => rfl
  | cons c rest ih =>
    show check_pin_seq (asimcard_check_pin sim c).1 rest = sim
    rw [check_pin_gated sim c h1 h2]
    exact ih

/-- Calls of `check_puk` on a card that is not in PUK leave it as it is. -/
theorem check_puk_seq_gated (cands : List (String × String)) (sim : ASimCardRec)
    (h : sim.status ≠ A_SIM_STATUS_PUK) :
    check_puk_seq sim cands = sim := by
  induction cands with
  | nil => rfl
  | cons c rest ih =>
    show check_puk_seq (asimcard_check_puk sim c.1 c.2).1 rest = sim
    rw [check_puk_gated sim c.1 c.2 h]
    exact ih

/-- Wrong PIN candidates starting in PIN with a counter below 3: once the
calls are enough for the counter to reach 3 the card is in PUK. -/
theorem check_pin_seq_wrong (cands : List String) :
    ∀ sim : ASimCardRec, sim.status = A_SIM_STATUS_PIN →
      (∀ c ∈ cands, c ≠ sim.pin) → sim.pin_retries < 3 →
      3 ≤ sim.pin_retries + (cands.length : Int) →
      (check_pin_seq sim cands).status = A_SIM_STATUS_PUK := by
  induction cands with
  | nil =>
    intro sim _ _ hlt hge
    simp only [List.length_nil, Nat.cast_zero, add_zero] at hge
    omega
  | cons c rest ih =>
    intro sim hs hc hlt hge
    obtain ⟨hp, hr, hst⟩ := check_pin_wrong_step sim c hs (hc c (List.mem_cons_self c rest))
    show (check_pin_seq (asimcard_check_pin sim c).1 rest).status = A_SIM_STATUS_PUK
    by_cases h3 : sim.pin_retries + 1 = 3
    · rw [if_pos h3] at hst
      rw [check_pin_seq_gated rest _ (by rw [hst]; decide) (by rw [hst]; decide)]
      exact hst
    · rw [if_neg h3] at hst
      apply ih _ hst
      · intro d hd
        rw [hp]
        exact hc d (List.mem_cons_of_mem c hd)
      · rw [hr]; omega
      · rw [hr]
        simp only [List.length_cons, Nat.cast_add, Nat.cast_one] at hge
        omega

/-- Wrong PUK candidates starting in PUK with a counter below 6: once the
calls are enough for the counter to reach 6 the card is ABSENT. -/
theorem check_puk_seq_wrong (cands : List (String × String)) :
    ∀ sim : ASimCardRec, sim.status = A_SIM_STATUS_PUK →
      (∀ c ∈ cands, c.1 ≠ sim.puk) → sim.pin_retries < 6 →
      6 ≤ sim.pin_retries + (cands.length : Int) →
      (check_puk_seq sim cands).status = A_SIM_STATUS_ABSENT := by
  induction cands with
  | nil =>
    intro sim _ _ hlt hge
    simp only [List.length_nil, Nat.cast_zero, add_zero] at hge
    omega
  | cons c rest ih =>
    intro sim hs hc hlt hge
    obtain ⟨hp, hr, hst⟩ :=
      check_puk_wrong_step sim c.1 c.2 hs (hc c (List.mem_cons_self c rest))
    show (check_puk_seq (asimcard_check_puk sim c.1 c.2).1 rest).status = A_SIM_STATUS_ABSENT
    by_cases h6 : sim.pin_retries + 1 = 6
    · rw [if_pos h6] at hst
      rw [check_puk_seq_gated rest _ (by rw [hst]; decide)]
      exact hst
    · rw [if_neg h6] at hst
      apply ih _ hst
      · intro d hd
        rw [hp]
        exact hc d (List.mem_cons_of_mem c hd)
      · rw [hr]; omega
      · rw [hr]
        simp only [List.length_cons, Nat.cast_add, Nat.cast_one] at hge
        omega


/-- C2, as stated, fails: the card `relocked_pin_card` is in PIN (with counter
3, stored PIN "0000"), and after three wrong candidates it is still in PIN, not
in PUK. -/
theorem check_pin_three_wrong_counterexample :
    relocked_pin_card.status = A_SIM_STATUS_PIN ∧
    relocked_pin_card.pin = "0000" ∧
    relocked_pin_card.pin_retries = 3 ∧
    (check_pin_seq relocked_pin_card ["1111", "2222", "3333"]).status = A_SIM_STATUS_PIN ∧
    (check_pin_seq relocked_pin_card ["1111", "2222", "3333"]).status ≠ A_SIM_STATUS_PUK := by
  decide

/-- C2, amended: for a card in PIN whose counter is 0, 1 or 2 and three
candidates that all differ from the stored PIN, the card is in PUK after the
three `check_pin` calls. -/
theorem check_pin_three_wrong (sim : ASimCardRec) (a b c : String)
    (hs : sim.status = A_SIM_STATUS_PIN)
    (hlo : 0 ≤ sim.pin_retries) (hhi : sim.pin_retries ≤ 2)
    (ha : a ≠ sim.pin) (hb : b ≠ sim.pin) (hc : c ≠ sim.pin) :
    (check_pin_seq sim [a, b, c]).status = A_SIM_STATUS_PUK := by
  apply check_pin_seq_wrong [a, b, c] sim hs
  · intro d hd
    simp only [List.mem_cons, List.mem_singleton, List.not_mem_nil, or_false] at hd
    rcases hd with h | h | h
    · rw [h]; exact ha
    · rw [h]; exact hb
    · rw [h]; exact hc
  · omega
  · simp only [List.length_cons, List.length_nil, Nat.cast_ofNat]
    omega

/-- The amended statement at a created card put into PIN, with three wrong
candidates. -/
theorem check_pin_three_wrong_witness :
    (check_pin_seq (asimcard_set_status (asimcard_create blank_slot 5554 0) A_SIM_STATUS_PIN)
      ["1111", "0001", "9999"]).status = A_SIM_STATUS_PUK :=
  check_pin_three_wrong
    (asimcard_set_status (asimcard_create blank_slot 5554 0) A_SIM_STATUS_PIN)
    "1111" "0001" "9999" (by decide) (by decide) (by decide) (by decide) (by decide) (by decide)


/-- C3, as stated, fails: the card `relocked_puk_card` is in PUK (with counter
6, stored PUK "12345678"), and after six wrong candidate PUKs it is still in
PUK, not ABSENT. -/
theorem check_puk_six_wrong_counterexample :
    relocked_puk_card.status = A_SIM_STATUS_PUK ∧
    relocked_puk_card.puk = "12345678" ∧
    relocked_puk_card.pin_retries = 6 ∧
    (check_puk_seq relocked_puk_card
      [("00000001", "1111"), ("00000002", "1111"), ("00000003", "1111"),
       ("00000004", "1111"), ("00000005", "1111"), ("00000006", "1111")]).status
      = A_SIM_STATUS_PUK ∧
    (check_puk_seq relocked_puk_card
      [("00000001", "1111"), ("00000002", "1111"), ("00000003", "1111"),
       ("00000004", "1111"), ("00000005", "1111"), ("00000006", "1111")]).status
      ≠ A_SIM_STATUS_ABSENT := by
  decide

/-- C3, amended: for a card in PUK whose counter is between 0 and 5 and six
candidate PUKs (each with any new PIN) that all differ from the stored PUK, the
card is ABSENT after the six `check_puk` calls. -/
theorem check_puk_six_wrong (sim : ASimCardRec) (cands : List (String × String))
    (hs : sim.status = A_SIM_STATUS_PUK)
    (hlo : 0 ≤ sim.pin_retries) (hhi : sim.pin_retries ≤ 5)
    (hn : cands.length = 6) (hc : ∀ c ∈ cands, c.1 ≠ sim.puk) :
    (check_puk_seq sim cands).status = A_SIM_STATUS_ABSENT := by
  apply check_puk_seq_wrong cands sim hs hc
  · omega
  · rw [hn]
    simp only [Nat.cast_ofNat]
    omega

/-- The amended statement at a created card put into PUK, with six wrong
candidates. -/
theorem check_puk_six_wrong_witness :
    (check_puk_seq (asimcard_set_status (asimcard_create blank_slot 5554 0) A_SIM_STATUS_PUK)
      [("00000001", "1111"), ("00000002", "1111"), ("00000003", "1111"),
       ("00000004", "1111"), ("00000005", "1111"), ("00000006", "1111")]).status
      = A_SIM_STATUS_ABSENT :=
  check_puk_six_wrong
    (asimcard_set_status (asimcard_create blank_slot 5554 0) A_SIM_STATUS_PUK)
    [("00000001", "1111"), ("00000002", "1111"), ("00000003", "1111"),
     ("00000004", "1111"), ("00000005", "1111"), ("00000006", "1111")]
    (by decide) (by decide) (by decide) (by decide) (by decide)


/-- C4, as stated, fails: on the card left by `set_pin("1234")` in PIN with
counter 0, three `check_pin("9999")` calls end in PUK with `pin_retries` 3,
not 0. -/
theorem scenario_three_wrong_counterexample :
    scenario_pin_card.status = A_SIM_STATUS_PIN ∧
    scenario_pin_card.pin = "1234" ∧
    scenario_pin_card.pin_retries = 0 ∧
    (check_pin_seq scenario_pin_card ["9999", "9999", "9999"]).status = A_SIM_STATUS_PUK ∧
    (check_pin_seq scenario_pin_card ["9999", "9999", "9999"]).pin_retries = 3 ∧
    ¬ ((check_pin_seq scenario_pin_card ["9999", "9999", "9999"]).status = A_SIM_STATUS_PUK ∧
       (check_pin_seq scenario_pin_card ["9999", "9999", "9999"]).pin_retries = 0) := by
  decide

/-- C4, amended: from a card in PIN with pin "1234" and `pin_retries` 0, three
`check_pin("9999")` calls in a row end with status PUK and `pin_retries` 3. -/
theorem scenario_three_wrong (sim : ASimCardRec)
    (hs : sim.status = A_SIM_STATUS_PIN) (hp : sim.pin = "1234") (hr : sim.pin_retries = 0) :
    (check_pin_seq sim ["9999", "9999", "9999"]).status = A_SIM_STATUS_PUK ∧
    (check_pin_seq sim ["9999", "9999", "9999"]).pin_retries = 3 := by
  have hne : ("9999" : String) ≠ "1234" := by decide
  obtain ⟨p1, r1, s1⟩ := check_pin_wrong_step sim "9999" hs (by rw [hp]; exact hne)
  rw [hr] at r1 s1
  rw [if_neg (by decide)] at s1
  rw [hp] at p1
  obtain ⟨p2, r2, s2⟩ :=
    check_pin_wrong_step (asimcard_check_pin sim "9999").1 "9999" s1 (by rw [p1]; exact hne)
  rw [r1] at r2 s2
  rw [if_neg (by decide)] at s2
  rw [p1] at p2
  obtain ⟨_, r3, s3⟩ :=
    check_pin_wrong_step (asimcard_check_pin (asimcard_check_pin sim "9999").1 "9999").1 "9999"
      s2 (by rw [p2]; exact hne)
  rw [r2] at r3 s3
  rw [if_pos (by decide)] at s3
  exact ⟨s3, by rw [show (check_pin_seq sim ["9999", "9999", "9999"]).pin_retries
    = (asimcard_check_pin (asimcard_check_pin (asimcard_check_pin sim "9999").1 "9999").1
        "9999").1.pin_retries from rfl, r3]; decide⟩

/-- The amended statement at the card of the scenario. -/
theorem scenario_three_wrong_witness :
    (check_pin_seq scenario_pin_card ["9999", "9999", "9999"]).status = A_SIM_STATUS_PUK ∧
    (check_pin_seq scenario_pin_card ["9999", "9999", "9999"]).pin_retries = 3 :=
  scenario_three_wrong scenario_pin_card (by decide) (by decide) (by decide)

/-- In ABSENT every sequence of authentication calls leaves the card as it is
and returns only zeros. -/
theorem auth_calls_absent (calls : List AuthCall) (sim : ASimCardRec)
    (h : sim.status = A_SIM_STATUS_ABSENT) :
    auth_calls sim calls = (sim, List.replicate calls.length 0) := by
  induction calls with
  | nil => rfl
  | cons c rest ih =>
    have hc : auth_call sim c = (sim, 0) := by
      cases c with
      | pin candidate =>
        exact check_pin_gated sim candidate (by rw [h]; decide) (by rw [h]; decide)
      | puk candidate new_pin =>
        exact check_puk_gated sim candidate new_pin (by rw [h]; decide)
    show ((auth_calls (auth_call sim c).1 rest).1,
      (auth_call sim c).2 :: (auth_calls (auth_call sim c).1 rest).2) = _
    rw [hc]
    show ((auth_calls sim rest).1, (0 : Int) :: (auth_calls sim rest).2) = _
    rw [ih]
    rfl

/-- C5: outside PIN and READY `check_pin` returns 0 and leaves the whole card
unchanged; outside PUK `check_puk` returns 0 and leaves the whole card
unchanged; from ABSENT every sequence of `check_pin`/`check_puk` calls returns
only zeros (never true) and leaves the card, its status included, unchanged. -/
theorem gating_atomic :
    (∀ (sim : ASimCardRec) (pin : String),
      sim.status ≠ A_SIM_STATUS_PIN → sim.status ≠ A_SIM_STATUS_READY →
      asimcard_check_pin sim pin = (sim, 0)) ∧
    (∀ (sim : ASimCardRec) (puk pin : String),
      sim.status ≠ A_SIM_STATUS_PUK →
      asimcard_check_puk sim puk pin = (sim, 0)) ∧
    (∀ (sim : ASimCardRec) (calls : List AuthCall),
      sim.status = A_SIM_STATUS_ABSENT →
      (auth_calls sim calls).1 = sim ∧
      (auth_calls sim calls).1.status = A_SIM_STATUS_ABSENT ∧
      (∀ r ∈ (auth_calls sim calls).2, r = 0 ∧ r ≠ 1)) := by
  refine ⟨check_pin_gated, check_puk_gated, ?_⟩
  intro sim calls h
  rw [auth_calls_absent calls sim h]
  refine ⟨rfl, h, ?_⟩
  intro r hr
  have h0 : r = 0 := (List.mem_replicate.mp hr).2
  rw [h0]
  exact ⟨rfl, by decide⟩

/-- In PIN or READY a candidate equal to the stored PIN makes `check_pin`
return 1. -/
theorem check_pin_accepts (sim : ASimCardRec) (pin : String)
    (hs : sim.status = A_SIM_STATUS_PIN ∨ sim.status = A_SIM_STATUS_READY)
    (he : sim.pin = pin) : (asimcard_check_pin sim pin).2 = 1 := by
  unfold asimcard_check_pin
  have hg : ¬ (sim.status ≠ A_SIM_STATUS_PIN ∧ sim.status ≠ A_SIM_STATUS_READY) := by
    rintro ⟨h1, h2⟩
    rcases hs with h | h
    · exact h1 h
    · exact h2 h
  rw [if_neg hg, if_pos he]

/-- C6: in PUK, a candidate equal to the stored PUK with a new PIN of exactly
4 characters makes `check_puk` return 1 and leave the card READY with
`pin_retries` 0, the new PIN stored and the PUK unchanged; a `check_pin` with
the new PIN right after returns 1. -/
theorem check_puk_unblock (sim : ASimCardRec) (puk new_pin : String)
    (hs : sim.status = A_SIM_STATUS_PUK) (hp : puk = sim.puk) (hl : new_pin.length = 4) :
    (asimcard_check_puk sim puk new_pin).2 = 1 ∧
    (asimcard_check_puk sim puk new_pin).1.status = A_SIM_STATUS_READY ∧
    (asimcard_check_puk sim puk new_pin).1.pin_retries = 0 ∧
    (asimcard_check_puk sim puk new_pin).1.pin = new_pin ∧
    (asimcard_check_puk sim puk new_pin).1.puk = sim.puk ∧
    (asimcard_check_pin (asimcard_check_puk sim puk new_pin).1 new_pin).2 = 1 := by
  have hpin : strncpy new_pin A_SIM_PIN_SIZE = new_pin :=
    strncpy_of_length_le new_pin A_SIM_PIN_SIZE (by rw [hl]; decide)
  have hpuk : strncpy puk A_SIM_PUK_SIZE = sim.puk := by
    rw [hp]
    exact strncpy_of_length_le sim.puk A_SIM_PUK_SIZE sim.puk_fits
  have hst : (asimcard_check_puk sim puk new_pin).1.status = A_SIM_STATUS_READY := by
    unfold asimcard_check_puk
    rw [if_neg (fun h => h hs), if_pos hp.symm]
  have hpn : (asimcard_check_puk sim puk new_pin).1.pin = new_pin := by
    unfold asimcard_check_puk
    rw [if_neg (fun h => h hs), if_pos hp.symm]
    exact hpin
  refine ⟨?_, hst, ?_, hpn, ?_, ?_⟩
  · unfold asimcard_check_puk
    rw [if_neg (fun h => h hs), if_pos hp.symm]
  · unfold asimcard_check_puk
    rw [if_neg (fun h => h hs), if_pos hp.symm]
  · unfold asimcard_check_puk
    rw [if_neg (fun h => h hs), if_pos hp.symm]
    exact hpuk
  · exact check_pin_accepts _ new_pin (Or.inr hst) hpn

/-- The unblock round trip at a created card put into PUK. -/
theorem check_puk_unblock_witness :
    (asimcard_check_puk
      (asimcard_set_status (asimcard_create blank_slot 5554 0) A_SIM_STATUS_PUK)
      "12345678" "4321").1.pin = "4321" ∧
    (asimcard_check_pin (asimcard_check_puk
      (asimcard_set_status (asimcard_create blank_slot 5554 0) A_SIM_STATUS_PUK)
      "12345678" "4321").1 "4321").2 = 1 :=
  have h := check_puk_unblock
    (asimcard_set_status (asimcard_create blank_slot 5554 0) A_SIM_STATUS_PUK)
    "12345678" "4321" (by decide) (by decide) (by decide)
  ⟨h.2.2.2.1, h.2.2.2.2.2⟩

/-- C7: `set_pin` with a PIN of 4 characters makes `get_pin` return it, sets
`pin_retries` to 0 and keeps status and puk; `set_puk` with a PUK of 8
characters makes `get_puk` return it, sets `pin_retries` to 0 and keeps status
and pin. -/
theorem set_pin_set_puk_frame (sim : ASimCardRec) (new_pin new_puk : String)
    (h4 : new_pin.length = 4) (h8 : new_puk.length = 8) :
    (asimcard_get_pin (asimcard_set_pin sim new_pin) = new_pin ∧
     (asimcard_set_pin sim new_pin).pin_retries = 0 ∧
     asimcard_get_status (asimcard_set_pin sim new_pin) = asimcard_get_status sim ∧
     asimcard_get_puk (asimcard_set_pin sim new_pin) = asimcard_get_puk sim) ∧
    (asimcard_get_puk (asimcard_set_puk sim new_puk) = new_puk ∧
     (asimcard_set_puk sim new_puk).pin_retries = 0 ∧
     asimcard_get_status (asimcard_set_puk sim new_puk) = asimcard_get_status sim ∧
     asimcard_get_pin (asimcard_set_puk sim new_puk) = asimcard_get_pin sim) := by
  refine ⟨⟨?_, rfl, rfl, rfl⟩, ⟨?_, rfl, rfl, rfl⟩⟩
  · exact strncpy_of_length_le new_pin A_SIM_PIN_SIZE (by rw [h4]; decide)
  · exact strncpy_of_length_le new_puk A_SIM_PUK_SIZE (by rw [h8]; decide)

/-- The setters at a created card, with "1234" and "87654321". -/
theorem set_pin_set_puk_frame_witness :
    asimcard_get_pin (asimcard_set_pin (asimcard_create blank_slot 5554 0) "1234") = "1234" ∧
    asimcard_get_puk (asimcard_set_puk (asimcard_create blank_slot 5554 0) "87654321")
      = "87654321" :=
  have h := set_pin_set_puk_frame (asimcard_create blank_slot 5554 0) "1234" "87654321"
    (by decide) (by decide)
  ⟨h.1.1, h.2.1⟩

/-- C8: whatever the registry entry held before, `create(port, instance_id)`
leaves it READY with pin "0000", puk "12345678", `pin_retries` 0 and the given
port and instance id. -/
theorem create_initial_state (slot : ASimCardRec) (port instance_id : Int) :
    (asimcard_create slot port instance_id).status = A_SIM_STATUS_READY ∧
    (asimcard_create slot port instance_id).pin = "0000" ∧
    (asimcard_create slot port instance_id).puk = "12345678" ∧
    (asimcard_create slot port instance_id).pin_retries = 0 ∧
    (asimcard_create slot port instance_id).port = port ∧
    (asimcard_create slot port instance_id).instance_id = instance_id ∧
    asimcard_get_status (asimcard_create slot port instance_id) = A_SIM_STATUS_READY ∧
    asimcard_get_pin (asimcard_create slot port instance_id) = "0000" ∧
    asimcard_get_puk (asimcard_create slot port instance_id) = "12345678" := by
  refine ⟨rfl, ?_, ?_, rfl, rfl, rfl, rfl, ?_, ?_⟩
  · show strncpy "0000" (A_SIM_PIN_SIZE + 1) = "0000"
    decide
  · show strncpy "12345678" (A_SIM_PUK_SIZE + 1) = "12345678"
    decide
  · show strncpy "0000" (A_SIM_PIN_SIZE + 1) = "0000"
    decide
  · show strncpy "12345678" (A_SIM_PUK_SIZE + 1) = "12345678"
    decide

/-! ## Theorems: READ_BINARY -/

/-- The lookup `asimcard_ef_find` finds nothing exactly when no file of the
store has the id. -/
theorem ef_find_none_iff (sim : ASimCardRec) (id : Int) :
    asimcard_ef_find sim id = none ↔ ∀ ef ∈ sim.efs, (ef.id.val : Int) ≠ id := by
  unfold asimcard_ef_find
  rw [List.find?_eq_none]
  constructor
  · intro h ef hef he
    exact h ef hef (decide_eq_true he)
  · intro h ef hef he
    exact h ef hef (of_decide_eq_true he)

/-- A file returned by `asimcard_ef_find` belongs to the store and has the
id. -/
theorem ef_find_some (sim : ASimCardRec) (id : Int) (ef : SimFileRec)
    (h : asimcard_ef_find sim id = some ef) : ef ∈ sim.efs ∧ (ef.id.val : Int) = id := by
  unfold asimcard_ef_find at h
  have hp : (fun g : SimFileRec => decide ((g.id.val : Int) = id)) ef = true :=
    @List.find?_some SimFileRec (fun g => decide ((g.id.val : Int) = id)) ef sim.efs h
  exact ⟨List.mem_of_find?_eq_some h, of_decide_eq_true hp⟩

/-- No file has the id 99999: a file id is an `unsigned short`. -/
theorem ef_find_99999 (sim : ASimCardRec) : asimcard_ef_find sim 99999 = none := by
  rw [ef_find_none_iff]
  intro ef _ he
  have hlt : ef.id.val < 65536 := ef.id.isLt
  omega



/-- When some file of the store has the id, `asimcard_ef_find` returns a
file. -/
theorem ef_find_exists (sim : ASimCardRec) (id : Int)
    (h : ∃ ef ∈ sim.efs, (ef.id.val : Int) = id) : ∃ ef, asimcard_ef_find sim id = some ef := by
  obtain ⟨ef, hmem, hid⟩ := h
  cases hf : asimcard_ef_find sim id with
  | none => exact absurd hid ((ef_find_none_iff sim id).mp hf ef hmem)
  | some g => exact ⟨g, rfl⟩

/-- READ_BINARY on an id that no file has: FILE_NOT_FOUND. -/
theorem read_binary_not_found (sim : ASimCardRec) (id p1 p2 p3 : Int)
    (h : ∀ ef ∈ sim.efs, (ef.id.val : Int) ≠ id) :
    asimcard_io_read_binary sim id p1 p2 p3 = "+CRSM: 106,130" := by
  unfold asimcard_io_read_binary
  rw [(ef_find_none_iff sim id).mpr h]
  rfl

/-- READ_BINARY on an existing file with p1 or p2 not 0:
INCORRECT_PARAMETERS. -/
theorem read_binary_incorrect (sim : ASimCardRec) (id p1 p2 p3 : Int) (ef : SimFileRec)
    (hf : asimcard_ef_find sim id = some ef) (hp : p1 ≠ 0 ∨ p2 ≠ 0) :
    asimcard_io_read_binary sim id p1 p2 p3 = "+CRSM: 106,134" := by
  unfold asimcard_io_read_binary
  rw [hf]
  show (if p1 ≠ 0 ∨ p2 ≠ 0 then _ else _) = _
  rw [if_pos hp]
  rfl

/-- C9: on every file store of the data model, where the length of a
Dedicated file is a byte count and so not negative, READ_BINARY follows the
decision chain. No file with the id (always so for id 99999):
"+CRSM: 106,130"; otherwise p1 or p2 not 0: "+CRSM: 106,134"; otherwise a file
that is not Dedicated: "+CRSM: 106,129"; otherwise p3 above the file length:
"+CRSM: 103,0"; otherwise "+CRSM: 144,0," followed by the hex of the bytes of
the file. The file taken is the first of the store with the id. -/
theorem read_binary_chain (sim : ASimCardRec) (id p1 p2 p3 : Int)
    (hlen : ∀ ef ∈ sim.efs, ef.type = SIM_FILE_EF_DEDICATED → 0 ≤ ef.length) :
    ((∀ ef ∈ sim.efs, (ef.id.val : Int) ≠ id) →
      asimcard_io_read_binary sim id p1 p2 p3 = "+CRSM: 106,130") ∧
    asimcard_io_read_binary sim 99999 p1 p2 p3 = "+CRSM: 106,130" ∧
    asimcard_io true sim "+CRSM=176,99999,0,0,4" = some "+CRSM: 106,130" ∧
    ((∃ ef ∈ sim.efs, (ef.id.val : Int) = id) → ∃ ef, asimcard_ef_find sim id = some ef) ∧
    (∀ ef, asimcard_ef_find sim id = some ef →
      (p1 ≠ 0 ∨ p2 ≠ 0 → asimcard_io_read_binary sim id p1 p2 p3 = "+CRSM: 106,134") ∧
      (p1 = 0 → p2 = 0 → ef.type ≠ SIM_FILE_EF_DEDICATED →
        asimcard_io_read_binary sim id p1 p2 p3 = "+CRSM: 106,129") ∧
      (p1 = 0 → p2 = 0 → ef.type = SIM_FILE_EF_DEDICATED → ef.length < p3 →
        asimcard_io_read_binary sim id p1 p2 p3 = "+CRSM: 103,0") ∧
      (p1 = 0 → p2 = 0 → ef.type = SIM_FILE_EF_DEDICATED → p3 ≤ ef.length →
        asimcard_io_read_binary sim id p1 p2 p3
          = "+CRSM: 144,0," ++ gsm_hex_from_bytes ef.data ef.length)) := by
  have h99 : ∀ a b c : Int, asimcard_io_read_binary sim 99999 a b c = "+CRSM: 106,130" := by
    intro a b c
    unfold asimcard_io_read_binary
    rw [ef_find_99999]
    rfl
  refine ⟨?_, h99 p1 p2 p3, ?_, ?_, ?_⟩
  · exact read_binary_not_found sim id p1 p2 p3
  · have hscan : sscanf_crsm "+CRSM=176,99999,0,0,4" = some (176, 99999, 0, 0, 4) := by
      decide
    have hstart : ¬ (("+CRSM=176,99999,0,0,4" : String).data.take 6 ≠ "+CRSM=".data) := by
      decide
    unfold asimcard_io
    rw [if_neg hstart, if_pos rfl, hscan]
    show (if (176 : Int) = A_SIM_CMD_GET_RESPONSE then _ else _) = _
    rw [if_neg (by decide), if_pos (by decide), h99]
  · exact ef_find_exists sim id
  · intro ef hf
    have hmem : ef ∈ sim.efs := (ef_find_some sim id ef hf).1
    refine ⟨read_binary_incorrect sim id p1 p2 p3 ef hf, ?_⟩
    unfold asimcard_io_read_binary
    rw [hf]
    refine ⟨?_, ?_, ?_⟩
    · intro h1 h2 ht
      show (if p1 ≠ 0 ∨ p2 ≠ 0 then _ else _) = _
      rw [if_neg (by rintro (h | h); exact h h1; exact h h2), if_pos ht]
      rfl
    · intro h1 h2 ht hl
      show (if p1 ≠ 0 ∨ p2 ≠ 0 then _ else _) = _
      rw [if_neg (by rintro (h | h); exact h h1; exact h h2), if_neg (fun h => h ht), if_pos hl]
      rfl
    · intro h1 h2 ht hl
      have hpos : 0 ≤ ef.length := hlen ef hmem ht
      show (if p1 ≠ 0 ∨ p2 ≠ 0 then _ else _) = _
      rw [if_neg (by rintro (h | h); exact h h1; exact h h2), if_neg (fun h => h ht),
        if_neg (by omega)]
      have hrd : asimcard_ef_read_dedicated (some ef)
          = (ef.length, gsm_hex_from_bytes ef.data ef.length) := by
        unfold asimcard_ef_read_dedicated
        show (if ef.type ≠ SIM_FILE_EF_DEDICATED then _ else _) = _
        rw [if_neg (fun h => h ht)]
      simp only [hrd]
      rw [if_neg (by omega)]
      rfl

/-- The lengths of the Dedicated files of `sample_card` are not negative. -/
theorem sample_card_lengths :
    ∀ ef ∈ sample_card.efs, ef.type = SIM_FILE_EF_DEDICATED → 0 ≤ ef.length := by
  intro ef hmem ht
  simp only [sample_card, List.mem_cons, List.mem_singleton, List.not_mem_nil,
    or_false] at hmem
  rcases hmem with h | h
  · rw [h] at ht
    exact absurd ht (by decide)
  · rw [h]
    decide

/-- The five outcomes of the chain on `sample_card`. -/
theorem read_binary_chain_witness :
    asimcard_io_read_binary sample_card 28589 0 0 4 = "+CRSM: 144,0,00000003" ∧
    asimcard_io_read_binary sample_card 28589 0 0 5 = "+CRSM: 103,0" ∧
    asimcard_io_read_binary sample_card 28474 0 0 4 = "+CRSM: 106,129" ∧
    asimcard_io_read_binary sample_card 28589 0 1 4 = "+CRSM: 106,134" ∧
    asimcard_io_read_binary sample_card 20226 0 1 4 = "+CRSM: 106,130" :=
  ⟨((read_binary_chain sample_card 28589 0 0 4 sample_card_lengths).2.2.2.2
      { type := SIM_FILE_EF_DEDICATED, id := 28589, flags := 1,
        data := fun off => if off = 3 then 3 else 0,
        length := 4, rec_count := 0, rec_len := 0, records := fun _ => 0 } rfl).2.2.2
      rfl rfl rfl (by decide),
   ((read_binary_chain sample_card 28589 0 0 5 sample_card_lengths).2.2.2.2
      { type := SIM_FILE_EF_DEDICATED, id := 28589, flags := 1,
        data := fun off => if off = 3 then 3 else 0,
        length := 4, rec_count := 0, rec_len := 0, records := fun _ => 0 } rfl).2.2.1
      rfl rfl rfl (by decide),
   ((read_binary_chain sample_card 28474 0 0 4 sample_card_lengths).2.2.2.2
      { type := SIM_FILE_EF_LINEAR, id := 28474, flags := 2, data := fun _ => 0,
        length := 0, rec_count := 4, rec_len := 32, records := fun _ => 255 } rfl).2.1
      rfl rfl (by decide),
   ((read_binary_chain sample_card 28589 0 1 4 sample_card_lengths).2.2.2.2
      { type := SIM_FILE_EF_DEDICATED, id := 28589, flags := 1,
        data := fun off => if off = 3 then 3 else 0,
        length := 4, rec_count := 0, rec_len := 0, records := fun _ => 0 } rfl).1
      (Or.inr (by decide)),
   (read_binary_chain sample_card 20226 0 1 4 sample_card_lengths).1 (by decide)⟩

/-! ## Theorems: READ_BINARY through the dispatcher -/


/-- The table lookup gives the INCORRECT_PARAMETERS response or the answer of
an entry whose command is the text looked up. -/
theorem answers_lookup_cases (table : List (String × String)) (cmd : String) :
    answers_lookup table cmd = SIM_RESPONSE_INCORRECT_PARAMETERS ∨
    ∃ entry ∈ table, entry.1 = cmd ∧ answers_lookup table cmd = entry.2 := by
  induction table with
  | nil => exact Or.inl rfl
  | cons e rest ih =>
    by_cases he : e.1 = cmd
    · refine Or.inr ⟨e, List.mem_cons_self e rest, he, ?_⟩
      show (if e.1 = cmd then e.2 else answers_lookup rest cmd) = e.2
      rw [if_pos he]
    · have hstep : answers_lookup (e :: rest) cmd = answers_lookup rest cmd := by
        show (if e.1 = cmd then e.2 else answers_lookup rest cmd) = _
        rw [if_neg he]
      rw [hstep]
      rcases ih with h | ⟨entry, hmem, h1, h2⟩
      · exact Or.inl h
      · exact Or.inr ⟨entry, List.mem_cons_of_mem e hmem, h1, h2⟩

/-- Every entry of the table passes `entry_read_binary_plain`. -/
theorem answers_read_binary_plain : ∀ entry ∈ answers, entry_read_binary_plain entry = true := by
  decide

/-- A value of the range of `int` is stored as it is. -/
theorem store_int_of_range (v : Int) (h : int_range v) : store_int v = v := by
  obtain ⟨h0, h1⟩ := h
  unfold store_int
  dsimp only
  rw [if_neg (by omega), if_neg (by omega)]
  omega

/-- The value kept by `store_int` is a value of `int`. -/
theorem store_int_range (v : Int) : int_range (store_int v) := by
  unfold store_int
  dsimp only
  constructor <;> omega

/-- A text that `sscanf` reads as five integers starts with "+CRSM=". -/
theorem sscanf_crsm_start (cmd : String) (v : Int × Int × Int × Int × Int)
    (h : sscanf_crsm cmd = some v) : cmd.data.take 6 = "+CRSM=".data := by
  by_contra hn
  unfold sscanf_crsm at h
  rw [if_neg hn] at h
  exact absurd h (by simp)

/-- The value stored by `%d` is a value of `int`. -/
theorem scan_d_int (input rest : List Char) (v : Int) (h : scan_d input = some (v, rest)) :
    int_range v := by
  unfold scan_d at h
  cases hd : scan_decimal input with
  | none =>
    rw [hd] at h
    exact absurd h (by simp)
  | some r =>
    rw [hd] at h
    have hv : store_int r.1 = v := (Prod.mk.inj (Option.some.inj h)).1
    rw [← hv]
    exact store_int_range r.1

/-- The five values stored by the `sscanf` call are values of `int`. -/
theorem sscanf_crsm_int (cmd : String) (command id p1 p2 p3 : Int)
    (h : sscanf_crsm cmd = some (command, id, p1, p2, p3)) :
    int_range command ∧ int_range id ∧ int_range p1 ∧ int_range p2 ∧ int_range p3 := by
  have hstart := sscanf_crsm_start cmd _ h
  unfold sscanf_crsm at h
  rw [if_pos hstart] at h
  simp only [Option.bind_eq_bind, Option.pure_def, Option.some_bind, Option.bind_eq_some'] at h
  obtain ⟨r1, h1, s2, _, r2, h2, s4, _, r3, h3, s6, _, r4, h4, s8, _, r5, h5, heq⟩ := h
  simp only [Option.some.injEq, Prod.mk.injEq] at heq
  obtain ⟨e1, e2, e3, e4, e5⟩ := heq
  rw [← e1, ← e2, ← e3, ← e4, ← e5]
  exact ⟨scan_d_int _ _ _ h1, scan_d_int _ _ _ h2, scan_d_int _ _ _ h3, scan_d_int _ _ _ h4,
    scan_d_int _ _ _ h5⟩

/-- C10, as stated, fails. In the source as built (static table) the READ_BINARY
command "+CRSM=176,20226,0,22,9", whose p2 is 22, is answered from the table;
with dynamic records the same command on a card without that file is answered
FILE_NOT_FOUND. Neither response is "+CRSM: 106,134". -/
theorem read_binary_bad_params_counterexample :
    sscanf_crsm "+CRSM=176,20226,0,22,9" = some (A_SIM_CMD_READ_BINARY, 20226, 0, 22, 9) ∧
    asimcard_io false sample_card "+CRSM=176,20226,0,22,9"
      = some "+CRSM: 144,0,0808ff03a59999a5c3ff" ∧
    asimcard_io false sample_card "+CRSM=176,20226,0,22,9" ≠ some "+CRSM: 106,134" ∧
    asimcard_io true sample_card "+CRSM=176,20226,0,22,9" = some "+CRSM: 106,130" ∧
    asimcard_io true sample_card "+CRSM=176,20226,0,22,9" ≠ some "+CRSM: 106,134" := by
  decide

/-- C10, amended: for every card and every command text from which `sscanf`
stores the five `int` values 176 (READ_BINARY), id, p1, p2, p3, with the stored
p1 or the stored p2 different from 0: with dynamic records the response is
"+CRSM: 106,134" when a file of the card has the id and "+CRSM: 106,130" when
none has; with the static table the response is "+CRSM: 106,134" unless the
text is the table command "+CRSM=176,20226,0,22,9"; and the stored values are
values of the 32-bit `int` (a p2 written 4294967296 is stored as 0 and is not
a bad parameter). -/
theorem read_binary_bad_params (sim : ASimCardRec) (cmd : String) (id p1 p2 p3 : Int)
    (hscan : sscanf_crsm cmd = some (A_SIM_CMD_READ_BINARY, id, p1, p2, p3))
    (hp : p1 ≠ 0 ∨ p2 ≠ 0) :
    ((∃ ef ∈ sim.efs, (ef.id.val : Int) = id) →
      asimcard_io true sim cmd = some "+CRSM: 106,134") ∧
    ((∀ ef ∈ sim.efs, (ef.id.val : Int) ≠ id) →
      asimcard_io true sim cmd = some "+CRSM: 106,130") ∧
    (cmd ≠ "+CRSM=176,20226,0,22,9" →
      asimcard_io false sim cmd = some "+CRSM: 106,134") ∧
    (int_range id ∧ int_range p1 ∧ int_range p2 ∧ int_range p3) := by
  have hstart : ¬ (cmd.data.take 6 ≠ "+CRSM=".data) :=
    fun h => h (sscanf_crsm_start cmd _ hscan)
  have hdyn : asimcard_io true sim cmd = some (asimcard_io_read_binary sim id p1 p2 p3) := by
    unfold asimcard_io
    rw [if_neg hstart, if_pos rfl, hscan]
    show (if A_SIM_CMD_READ_BINARY = A_SIM_CMD_GET_RESPONSE then _ else _) = _
    rw [if_neg (by decide), if_pos rfl]
  refine ⟨?_, ?_, ?_, (sscanf_crsm_int cmd _ id p1 p2 p3 hscan).2⟩
  · intro hex
    obtain ⟨ef, hf⟩ := ef_find_exists sim id hex
    rw [hdyn, read_binary_incorrect sim id p1 p2 p3 ef hf hp]
  · intro hnone
    rw [hdyn, read_binary_not_found sim id p1 p2 p3 hnone]
  · intro hne
    have hmsisdn : ¬ ("+CRSM=178,28480,1,4,32" = cmd) := by
      intro h
      have hm : sscanf_crsm "+CRSM=178,28480,1,4,32" = some (178, 28480, 1, 4, 32) := by
        decide
      rw [← h, hm] at hscan
      have hcode : (178 : Int) = A_SIM_CMD_READ_BINARY := (Prod.mk.inj (Option.some.inj hscan)).1
      exact absurd hcode (by decide)
    unfold asimcard_io
    rw [if_neg hstart]
    show (if "+CRSM=178,28480,1,4,32" = cmd then _ else some (answers_lookup answers cmd)) = _
    rw [if_neg hmsisdn]
    rcases answers_lookup_cases answers cmd with h | ⟨entry, hmem, h1, _⟩
    · rw [h]
      rfl
    · exfalso
      have hok := answers_read_binary_plain entry hmem
      unfold entry_read_binary_plain at hok
      rw [h1, hscan] at hok
      have hcases := of_decide_eq_true hok
      rcases hcases with h | ⟨ha, hb⟩ | h
      · exact h rfl
      · rcases hp with h | h
        · exact h ha
        · exact h hb
      · exact hne h

/-- The parts of the amended statement on `sample_card`: a p2 of 1 and a p2
written 4294967297, which is stored as 1, are bad parameters; a p2 written
4294967296 is stored as 0 and the file is read. -/
theorem read_binary_bad_params_witness :
    asimcard_io true sample_card "+CRSM=176,28589,0,1,4" = some "+CRSM: 106,134" ∧
    asimcard_io true sample_card "+CRSM=176,12258,0,1,4" = some "+CRSM: 106,130" ∧
    asimcard_io false sample_card "+CRSM=176,12258,0,1,4" = some "+CRSM: 106,134" ∧
    asimcard_io true sample_card "+CRSM=176,28589,0,4294967297,4" = some "+CRSM: 106,134" ∧
    sscanf_crsm "+CRSM=176,28589,0,4294967296,4" = some (176, 28589, 0, 0, 4) ∧
    asimcard_io true sample_card "+CRSM=176,28589,0,4294967296,4"
      = some "+CRSM: 144,0,00000003" :=
  have hef : ∃ ef ∈ sample_card.efs, (ef.id.val : Int) = 28589 :=
    ⟨{ type := SIM_FILE_EF_DEDICATED, id := 28589, flags := 1,
       data := fun off => if off = 3 then 3 else 0,
       length := 4, rec_count := 0, rec_len := 0, records := fun _ => 0 },
     List.mem_cons_of_mem _ (List.mem_cons_self _ _), rfl⟩
  have h1 := read_binary_bad_params sample_card "+CRSM=176,28589,0,1,4" 28589 0 1 4
    (by decide) (Or.inr (by decide))
  have h2 := read_binary_bad_params sample_card "+CRSM=176,12258,0,1,4" 12258 0 1 4
    (by decide) (Or.inr (by decide))
  have h3 := read_binary_bad_params sample_card "+CRSM=176,28589,0,4294967297,4" 28589 0 1 4
    (by decide) (Or.inr (by decide))
  ⟨h1.1 hef, h2.2.1 (by decide), h2.2.2.1 (by decide), h3.1 hef, by decide, by decide⟩

/-! ## Theorems: hex codec -/

/-- The list `0, 1, ..., n - 1` read as integers. -/
theorem range_cast (n : Nat) :
    (do let a ← List.range n; pure (a : Int) : List Int)
      = List.map (fun a : Nat => (a : Int)) (List.range n) := by
  induction n with
  | zero => rfl
  | succ k ih =>
    rw [List.range_succ, List.map_append, ← ih]
    simp

/-- The text written by `gsm_hex_from_bytes`: the two characters of the byte
at offset 0, then of the byte at offset 1, and so on. -/
theorem gsm_hex_from_bytes_eq (bytes : cbytes_t) (nbytes : Int) :
    gsm_hex_from_bytes bytes nbytes = String.join (List.map
      (fun nn : Nat => gsm_hex_from_byte ((bytes (nn : Int)).val : Int))
      (List.range nbytes.toNat)) := by
  unfold gsm_hex_from_bytes
  rw [range_cast, List.map_map]
  rfl

/-- Every byte is written as two characters. -/
theorem gsm_hex_from_byte_length (val : Int) : (gsm_hex_from_byte val).length = 2 := rfl

/-- Appending strings of two characters each adds two characters per
string. -/
theorem join_length_two (l : List String) (h : ∀ s ∈ l, s.length = 2) :
    ∀ acc : String, (l.foldl (fun r s => r ++ s) acc).length = acc.length + 2 * l.length := by
  induction l with
  | nil => intro acc; simp
  | cons s rest ih =>
    intro acc
    rw [List.foldl_cons, ih (fun t ht => h t (List.mem_cons_of_mem s ht)), String.length_append,
      h s (List.mem_cons_self s rest), List.length_cons]
    omega

/-- The text written by `gsm_hex_from_bytes` has two characters per byte. -/
theorem gsm_hex_from_bytes_length (bytes : cbytes_t) (nbytes : Int) :
    (gsm_hex_from_bytes bytes nbytes).length = 2 * nbytes.toNat := by
  rw [gsm_hex_from_bytes_eq]
  unfold String.join
  rw [join_length_two]
  · rw [List.length_map, List.length_range]
    show 0 + 2 * nbytes.toNat = 2 * nbytes.toNat
    omega
  · intro s hs
    rw [List.mem_map] at hs
    obtain ⟨nn, _, hnn⟩ := hs
    rw [← hnn]
    rfl

/-! ## Theorems: READ_BINARY payload -/

/-- READ_BINARY on a Dedicated file with p1 = p2 = 0 and p3 within a length
that is not negative: the normal ending followed by the hex of all the bytes of
the file. -/
theorem read_binary_success (sim : ASimCardRec) (id p3 : Int) (ef : SimFileRec)
    (hf : asimcard_ef_find sim id = some ef) (ht : ef.type = SIM_FILE_EF_DEDICATED)
    (h0 : 0 ≤ ef.length) (h3 : p3 ≤ ef.length) :
    asimcard_io_read_binary sim id 0 0 p3
      = "+CRSM: 144,0," ++ gsm_hex_from_bytes ef.data ef.length := by
  unfold asimcard_io_read_binary
  rw [hf]
  show (if (0 : Int) ≠ 0 ∨ (0 : Int) ≠ 0 then _ else _) = _
  rw [if_neg (by decide), if_neg (fun h => h ht), if_neg (by omega)]
  have hrd : asimcard_ef_read_dedicated (some ef)
      = (ef.length, gsm_hex_from_bytes ef.data ef.length) := by
    unfold asimcard_ef_read_dedicated
    show (if ef.type ≠ SIM_FILE_EF_DEDICATED then _ else _) = _
    rw [if_neg (fun h => h ht)]
  simp only [hrd]
  rw [if_neg (by omega)]
  rfl

/-- C11, as stated, fails: on the Dedicated file 28589 of `sample_card`, whose
4 bytes are 00 00 00 03, READ_BINARY with p3 = 2 succeeds with the payload
"00000003", 8 characters, not with the hex "0000" of the first 2 bytes. -/
theorem read_binary_payload_counterexample :
    (asimcard_ef_find sample_card 28589).map (fun ef => (ef.type, ef.length))
      = some (SIM_FILE_EF_DEDICATED, 4) ∧
    asimcard_io_read_binary sample_card 28589 0 0 2 = "+CRSM: 144,0," ++ "00000003" ∧
    (asimcard_ef_find sample_card 28589).map (fun ef => gsm_hex_from_bytes ef.data 2)
      = some "0000" ∧
    ((asimcard_io_read_binary sample_card 28589 0 0 2).data.drop 13).length = 8 ∧
    ((asimcard_io_read_binary sample_card 28589 0 0 2).data.drop 13).length ≠ 2 * 2 := by
  decide

/-- C11, amended: when READ_BINARY succeeds on a Dedicated file (p1 = p2 = 0,
0 <= p3 <= file length), the text after "+CRSM: 144,0," is the hex of all the
`length` bytes of the file, 2 x length characters, whatever p3 is. -/
theorem read_binary_payload (sim : ASimCardRec) (id p3 : Int) (ef : SimFileRec)
    (hf : asimcard_ef_find sim id = some ef) (ht : ef.type = SIM_FILE_EF_DEDICATED)
    (h0 : 0 ≤ p3) (h3 : p3 ≤ ef.length) :
    asimcard_io_read_binary sim id 0 0 p3
      = "+CRSM: 144,0," ++ gsm_hex_from_bytes ef.data ef.length ∧
    String.mk ((asimcard_io_read_binary sim id 0 0 p3).data.drop 13)
      = gsm_hex_from_bytes ef.data ef.length ∧
    (((asimcard_io_read_binary sim id 0 0 p3).data.drop 13).length : Int) = 2 * ef.length := by
  have hs := read_binary_success sim id p3 ef hf ht (by omega) h3
  have hd : (asimcard_io_read_binary sim id 0 0 p3).data.drop 13
      = (gsm_hex_from_bytes ef.data ef.length).data := by
    rw [hs]
    rfl
  refine ⟨hs, ?_, ?_⟩
  · rw [hd]
  · rw [hd]
    have hl := gsm_hex_from_bytes_length ef.data ef.length
    have hl2 : (gsm_hex_from_bytes ef.data ef.length).data.length = 2 * ef.length.toNat := hl
    rw [hl2]
    omega

/-- The amended statement on the Dedicated file 28589 of `sample_card`, with
p3 = 2. -/
theorem read_binary_payload_witness :
    asimcard_io_read_binary sample_card 28589 0 0 2 = "+CRSM: 144,0,00000003" ∧
    (((asimcard_io_read_binary sample_card 28589 0 0 2).data.drop 13).length : Int) = 2 * 4 :=
  have h := read_binary_payload sample_card 28589 2
    { type := SIM_FILE_EF_DEDICATED, id := 28589, flags := 1,
      data := fun off => if off = 3 then 3 else 0,
      length := 4, rec_count := 0, rec_len := 0, records := fun _ => 0 }
    rfl rfl (by decide) (by decide)
  ⟨h.1, h.2.2⟩

/-! ## Theorems: READ_RECORD -/

/-- READ_RECORD on an id that no file has: FILE_NOT_FOUND. -/
theorem read_record_not_found (sim : ASimCardRec) (id p1 p2 p3 : Int)
    (h : ∀ ef ∈ sim.efs, (ef.id.val : Int) ≠ id) :
    asimcard_io_read_record sim id p1 p2 p3 = "+CRSM: 106,130" := by
  unfold asimcard_io_read_record
  rw [(ef_find_none_iff sim id).mpr h]
  rfl

/-- READ_RECORD on an existing file in absolute mode with a positive record
number, when the file is not Linear: FUNCTION_NOT_SUPPORT. -/
theorem read_record_not_linear (sim : ASimCardRec) (id p1 p3 : Int) (ef : SimFileRec)
    (hf : asimcard_ef_find sim id = some ef) (h1 : 0 < p1)
    (ht : ef.type ≠ SIM_FILE_EF_LINEAR) :
    asimcard_io_read_record sim id p1 4 p3 = "+CRSM: 106,129" := by
  unfold asimcard_io_read_record
  rw [hf]
  show (if (4 : Int) ≠ (4 : Int) ∨ p1 ≤ 0 then _ else _) = _
  rw [if_neg (by rintro (h | h); exact h rfl; omega), if_pos ht]
  rfl

/-- The helper `asimcard_ef_read_linear` fails on a file that is not
Linear. -/
theorem read_linear_not_linear (ef : SimFileRec) (record_id : byte_t)
    (ht : ef.type ≠ SIM_FILE_EF_LINEAR) :
    asimcard_ef_read_linear (some ef) record_id = (-1, "") := by
  unfold asimcard_ef_read_linear
  show (if ef.type ≠ SIM_FILE_EF_LINEAR then _ else _) = _
  rw [if_pos ht]

/-- The helper `asimcard_ef_read_linear` on a Linear file with a record id
that is not above the record count: the record length and the hex of that many
bytes from the offset (record_id - 1) x rec_len of the record buffer. -/
theorem read_linear_in_range (ef : SimFileRec) (record_id : byte_t)
    (ht : ef.type = SIM_FILE_EF_LINEAR) (hr : record_id.val ≤ ef.rec_count.val) :
    asimcard_ef_read_linear (some ef) record_id
      = ((ef.rec_len.val : Int),
         gsm_hex_from_bytes
           (fun off => ef.records ((((record_id.val : Int) - 1) * (ef.rec_len.val : Int)) + off))
           (ef.rec_len.val : Int)) := by
  unfold asimcard_ef_read_linear
  show (if ef.type ≠ SIM_FILE_EF_LINEAR then _ else _) = _
  rw [if_neg (fun h => h ht), if_neg (by omega)]

/-- A value between 0 and 255 is unchanged by the narrowing to `byte_t`. -/
theorem int_to_byte_val (v : Int) (h0 : 0 ≤ v) (h1 : v ≤ 255) :
    (((int_to_byte v).val : Nat) : Int) = v := by
  show (((v % 256).toNat : Nat) : Int) = v
  omega

/-- C12: READ_RECORD follows the decision chain. No file with the id:
"+CRSM: 106,130"; otherwise p2 not 4 or p1 <= 0: "+CRSM: 106,134"; otherwise a
file that is not Linear: "+CRSM: 106,129"; otherwise p1 above rec_count:
"+CRSM: 106,131"; otherwise p3 above rec_len: "+CRSM: 103,0"; otherwise
"+CRSM: 144,0," followed by the hex of the rec_len bytes at offset
(p1 - 1) x rec_len of the record buffer, 2 x rec_len characters. The file
taken is the first of the store with the id. -/
theorem read_record_chain (sim : ASimCardRec) (id p1 p2 p3 : Int) :
    ((∀ ef ∈ sim.efs, (ef.id.val : Int) ≠ id) →
      asimcard_io_read_record sim id p1 p2 p3 = "+CRSM: 106,130") ∧
    ((∃ ef ∈ sim.efs, (ef.id.val : Int) = id) → ∃ ef, asimcard_ef_find sim id = some ef) ∧
    (∀ ef, asimcard_ef_find sim id = some ef →
      (p2 ≠ 4 ∨ p1 ≤ 0 → asimcard_io_read_record sim id p1 p2 p3 = "+CRSM: 106,134") ∧
      (p2 = 4 → 0 < p1 → ef.type ≠ SIM_FILE_EF_LINEAR →
        asimcard_io_read_record sim id p1 p2 p3 = "+CRSM: 106,129") ∧
      (p2 = 4 → 0 < p1 → ef.type = SIM_FILE_EF_LINEAR → (ef.rec_count.val : Int) < p1 →
        asimcard_io_read_record sim id p1 p2 p3 = "+CRSM: 106,131") ∧
      (p2 = 4 → 0 < p1 → ef.type = SIM_FILE_EF_LINEAR → p1 ≤ (ef.rec_count.val : Int) →
        (ef.rec_len.val : Int) < p3 →
        asimcard_io_read_record sim id p1 p2 p3 = "+CRSM: 103,0") ∧
      (p2 = 4 → 0 < p1 → ef.type = SIM_FILE_EF_LINEAR → p1 ≤ (ef.rec_count.val : Int) →
        p3 ≤ (ef.rec_len.val : Int) →
        asimcard_io_read_record sim id p1 p2 p3
          = "+CRSM: 144,0," ++ gsm_hex_from_bytes
              (fun off => ef.records (((p1 - 1) * (ef.rec_len.val : Int)) + off))
              (ef.rec_len.val : Int) ∧
        ((asimcard_io_read_record sim id p1 p2 p3).data.drop 13).length
          = 2 * ef.rec_len.val)) := by
  refine ⟨read_record_not_found sim id p1 p2 p3, ef_find_exists sim id, ?_⟩
  intro ef hf
  refine ⟨?_, ?_, ?_, ?_, ?_⟩
  · intro hp
    unfold asimcard_io_read_record
    rw [hf]
    show (if p2 ≠ (4 : Int) ∨ p1 ≤ 0 then _ else _) = _
    rw [if_pos hp]
    rfl
  · intro h2 h1 ht
    rw [h2]
    exact read_record_not_linear sim id p1 p3 ef hf h1 ht
  · intro h2 h1 ht hc
    unfold asimcard_io_read_record
    rw [hf]
    show (if p2 ≠ (4 : Int) ∨ p1 ≤ 0 then _ else _) = _
    rw [if_neg (by rintro (h | h); exact h h2; omega), if_neg (fun h => h ht), if_pos hc]
    rfl
  · intro h2 h1 ht hc hl
    unfold asimcard_io_read_record
    rw [hf]
    show (if p2 ≠ (4 : Int) ∨ p1 ≤ 0 then _ else _) = _
    rw [if_neg (by rintro (h | h); exact h h2; omega), if_neg (fun h => h ht),
      if_neg (by omega), if_pos hl]
    rfl
  · intro h2 h1 ht hc hl
    have hlt : ef.rec_count.val < 256 := ef.rec_count.isLt
    have hb : (((int_to_byte p1).val : Nat) : Int) = p1 :=
      int_to_byte_val p1 (by omega) (by omega)
    have hrl := read_linear_in_range ef (int_to_byte p1) ht (by omega)
    rw [hb] at hrl
    have hresp : asimcard_io_read_record sim id p1 p2 p3
        = "+CRSM: 144,0," ++ gsm_hex_from_bytes
            (fun off => ef.records (((p1 - 1) * (ef.rec_len.val : Int)) + off))
            (ef.rec_len.val : Int) := by
      unfold asimcard_io_read_record
      rw [hf]
      show (if p2 ≠ (4 : Int) ∨ p1 ≤ 0 then _ else _) = _
      rw [if_neg (by rintro (h | h); exact h h2; omega), if_neg (fun h => h ht),
        if_neg (by omega), if_neg (by omega)]
      simp only [hrl]
      rw [if_neg (by omega)]
      rfl
    refine ⟨hresp, ?_⟩
    rw [hresp]
    show (gsm_hex_from_bytes _ _).length = _
    rw [gsm_hex_from_bytes_length]
    rfl

/-- The six outcomes of the chain on `sample_card`. -/
theorem read_record_chain_witness :
    asimcard_io_read_record sample_card 28474 2 4 32
      = "+CRSM: 144,0,ffffffffffffffffffffffffffffffffffffffffffffffffffffffffffffffff" ∧
    asimcard_io_read_record sample_card 28474 2 4 33 = "+CRSM: 103,0" ∧
    asimcard_io_read_record sample_card 28474 5 4 32 = "+CRSM: 106,131" ∧
    asimcard_io_read_record sample_card 28589 1 4 4 = "+CRSM: 106,129" ∧
    asimcard_io_read_record sample_card 28474 0 4 32 = "+CRSM: 106,134" ∧
    asimcard_io_read_record sample_card 20256 1 4 4 = "+CRSM: 106,130" :=
  ⟨(((read_record_chain sample_card 28474 2 4 32).2.2
      { type := SIM_FILE_EF_LINEAR, id := 28474, flags := 2, data := fun _ => 0,
        length := 0, rec_count := 4, rec_len := 32, records := fun _ => 255 } rfl).2.2.2.2
      rfl (by decide) rfl (by decide) (by decide)).1,
   ((read_record_chain sample_card 28474 2 4 33).2.2
      { type := SIM_FILE_EF_LINEAR, id := 28474, flags := 2, data := fun _ => 0,
        length := 0, rec_count := 4, rec_len := 32, records := fun _ => 255 } rfl).2.2.2.1
      rfl (by decide) rfl (by decide) (by decide),
   ((read_record_chain sample_card 28474 5 4 32).2.2
      { type := SIM_FILE_EF_LINEAR, id := 28474, flags := 2, data := fun _ => 0,
        length := 0, rec_count := 4, rec_len := 32, records := fun _ => 255 } rfl).2.2.1
      rfl (by decide) rfl (by decide),
   ((read_record_chain sample_card 28589 1 4 4).2.2
      { type := SIM_FILE_EF_DEDICATED, id := 28589, flags := 1,
        data := fun off => if off = 3 then 3 else 0,
        length := 4, rec_count := 0, rec_len := 0, records := fun _ => 0 } rfl).2.1
      rfl (by decide) (by decide),
   ((read_record_chain sample_card 28474 0 4 32).2.2
      { type := SIM_FILE_EF_LINEAR, id := 28474, flags := 2, data := fun _ => 0,
        length := 0, rec_count := 4, rec_len := 32, records := fun _ => 255 } rfl).1
      (Or.inr (by decide)),
   (read_record_chain sample_card 20256 1 4 4).1 (by decide)⟩

/-- C13, as stated, fails: on the Cyclic file 20256 of `cyclic_card` (2
records of 4 bytes) READ_RECORD with p1 = 1, p2 = 4, p3 = 4 is answered
"+CRSM: 106,129", also through the dispatcher with dynamic records, and
`asimcard_ef_read_linear` with record id 1 returns -1, not rec_len. -/
theorem cyclic_read_counterexample :
    (asimcard_ef_find cyclic_card 20256).map
        (fun ef => (ef.type, ef.rec_count.val, ef.rec_len.val))
      = some (SIM_FILE_EF_CYCLIC, 2, 4) ∧
    asimcard_io_read_record cyclic_card 20256 1 4 4 = "+CRSM: 106,129" ∧
    asimcard_io true cyclic_card "+CRSM=178,20256,1,4,4" = some "+CRSM: 106,129" ∧
    (asimcard_io_read_record cyclic_card 20256 1 4 4).data.take 13 ≠ "+CRSM: 144,0,".data ∧
    asimcard_ef_read_linear (asimcard_ef_find cyclic_card 20256) 1 = (-1, "") := by
  decide

/-- C13, amended: Cyclic files are not read like Linear files. For every
Cyclic file, every p1 >= 1 (so every p1 in [1, rec_count]) and every p3 (so
every p3 <= rec_len), READ_RECORD with p2 = 4 is answered "+CRSM: 106,129",
and `asimcard_ef_read_linear` on that file with record id p1 fails, returning
-1 and no text. -/
theorem cyclic_read_rejected (sim : ASimCardRec) (id p1 p3 : Int) (ef : SimFileRec)
    (hf : asimcard_ef_find sim id = some ef) (ht : ef.type = SIM_FILE_EF_CYCLIC)
    (h1 : 1 ≤ p1) :
    asimcard_io_read_record sim id p1 4 p3 = "+CRSM: 106,129" ∧
    asimcard_ef_read_linear (some ef) (int_to_byte p1) = (-1, "") ∧
    (asimcard_ef_read_linear (some ef) (int_to_byte p1)).1 < 0 := by
  have hne : ef.type ≠ SIM_FILE_EF_LINEAR := by
    rw [ht]
    decide
  have hr := read_linear_not_linear ef (int_to_byte p1) hne
  refine ⟨read_record_not_linear sim id p1 p3 ef hf (by omega) hne, hr, ?_⟩
  rw [hr]
  decide

/-- The amended statement on the Cyclic file of `cyclic_card`. -/
theorem cyclic_read_rejected_witness :
    asimcard_io_read_record cyclic_card 20256 2 4 4 = "+CRSM: 106,129" ∧
    asimcard_ef_read_linear
      (some { type := SIM_FILE_EF_CYCLIC, id := 20256, flags := 0, data := fun _ => 0,
              length := 0, rec_count := 2, rec_len := 4, records := fun _ => 255 })
      (int_to_byte 2) = (-1, "") :=
  have h := cyclic_read_rejected cyclic_card 20256 2 4
    { type := SIM_FILE_EF_CYCLIC, id := 20256, flags := 0, data := fun _ => 0,
      length := 0, rec_count := 2, rec_len := 4, records := fun _ => 255 }
    rfl rfl (by decide)
  ⟨h.1, h.2.1⟩

/-- The digits of the hex codec are those of `Nat.digitChar`. -/
theorem hexdigits_digitChar : ∀ d : Nat, d < 16 → hexdigits.getD d '0' = Nat.digitChar d := by
  decide

/-- The hex codec on a byte value that is not negative. -/
theorem gsm_hex_from_byte_nat (n : Nat) : gsm_hex_from_byte (n : Int) = hex2 n := by
  have h1 : (((n : Int) / 16) % 16).toNat = n / 16 % 16 := by omega
  have h2 : ((n : Int) % 16).toNat = n % 16 := by omega
  unfold gsm_hex_from_byte hex2
  rw [h1, h2, hexdigits_digitChar _ (Nat.mod_lt _ (by decide)),
    hexdigits_digitChar _ (Nat.mod_lt _ (by decide))]

/-- The hex codec on a 16-bit value that is not negative. -/
theorem gsm_hex_from_short_nat (n : Nat) : gsm_hex_from_short (n : Int) = hex4 n := by
  have h0 : (n : Int) / 256 = ((n / 256 : Nat) : Int) := by omega
  have h1 : n / 256 / 16 % 16 = n / 4096 % 16 := by omega
  unfold gsm_hex_from_short
  rw [h0, gsm_hex_from_byte_nat, gsm_hex_from_byte_nat]
  unfold hex2 hex4
  rw [h1]
  rfl

/-- A flag test `flags & (1 << i)` of the C code is the bit `i` of the
flags. -/
theorem flag_test (flags i : Nat) : (flags &&& 2 ^ i ≠ 0) ↔ flags.testBit i = true := by
  rw [Nat.and_two_pow]
  cases flags.testBit i with
  | false => simp
  | true => simp

/-- The permission value computed by `sim_file_to_hex`, written by the hex
codec, is the access byte of the two flags. -/
theorem perm_access_byte (flags : Nat) :
    gsm_hex_from_byte
      (if flags &&& SIM_FILE_READ_ONLY ≠ 0 then
        (if flags &&& SIM_FILE_NEED_PIN ≠ 0 then 0x1a else 0x0a)
      else
        (if flags &&& SIM_FILE_NEED_PIN ≠ 0 then 0x11 else 0x00))
      = access_byte (flags.testBit 0) (flags.testBit 1) := by
  have h0 := flag_test flags 0
  have h1 := flag_test flags 1
  have e0 : SIM_FILE_READ_ONLY = 2 ^ 0 := rfl
  have e1 : SIM_FILE_NEED_PIN = 2 ^ 1 := rfl
  rw [e0, e1]
  cases hb0 : flags.testBit 0 <;> cases hb1 : flags.testBit 1
  · rw [if_neg (by rw [h0, hb0]; decide), if_neg (by rw [h1, hb1]; decide)]
    rfl
  · rw [if_neg (by rw [h0, hb0]; decide), if_pos (by rw [h1, hb1])]
    rfl
  · rw [if_pos (by rw [h0, hb0]), if_neg (by rw [h1, hb1]; decide)]
    rfl
  · rw [if_pos (by rw [h0, hb0]), if_pos (by rw [h1, hb1])]
    rfl

/-- The result of `sim_file_to_hex` on a file of one of the three EF types, as
the code computes it. -/
theorem sim_file_to_hex_ef (file : SimFileRec)
    (ht : file.type = SIM_FILE_EF_DEDICATED ∨ file.type = SIM_FILE_EF_LINEAR ∨
      file.type = SIM_FILE_EF_CYCLIC) :
    sim_file_to_hex file
      = (30, "0000"
          ++ gsm_hex_from_short
              (if file.type = SIM_FILE_EF_DEDICATED then file.length
               else (file.rec_count.val : Int) * (file.rec_len.val : Int))
          ++ gsm_hex_from_short (file.id.val : Int)
          ++ "04" ++ "00"
          ++ access_byte (file.flags.val.testBit 0) (file.flags.val.testBit 1)
          ++ "a0aa" ++ "00" ++ "02" ++ structure_byte file.type
          ++ (if file.type = SIM_FILE_EF_DEDICATED then "00"
              else gsm_hex_from_byte (file.rec_len.val : Int))) := by
  rw [← perm_access_byte]
  unfold sim_file_to_hex structure_byte
  rcases ht with h | h | h <;> rw [h]

/-- The hex codec writes four characters for a 16-bit value. -/
theorem gsm_hex_from_short_length (val : Int) : (gsm_hex_from_short val).length = 4 := rfl

/-- The access byte has two characters. -/
theorem access_byte_length (a b : Bool) : (access_byte a b).length = 2 := by
  cases a <;> cases b <;> rfl

/-- The structure byte has two characters. -/
theorem structure_byte_length (type : SimFileType) : (structure_byte type).length = 2 := by
  cases type <;> rfl

/-- On a file of one of the three EF types `sim_file_to_hex` returns 30 and
writes 30 characters, whatever the sizes are. -/
theorem sim_file_to_hex_length (file : SimFileRec)
    (ht : file.type = SIM_FILE_EF_DEDICATED ∨ file.type = SIM_FILE_EF_LINEAR ∨
      file.type = SIM_FILE_EF_CYCLIC) :
    (sim_file_to_hex file).1 = 30 ∧ (sim_file_to_hex file).2.length = 30 := by
  rw [sim_file_to_hex_ef file ht]
  refine ⟨rfl, ?_⟩
  have hlast : (if file.type = SIM_FILE_EF_DEDICATED then "00"
      else gsm_hex_from_byte (file.rec_len.val : Int)).length = 2 := by
    by_cases h : file.type = SIM_FILE_EF_DEDICATED
    · rw [if_pos h]; rfl
    · rw [if_neg h]; rfl
  simp only [String.length_append, gsm_hex_from_short_length, access_byte_length,
    structure_byte_length, hlast]
  rfl

/-- C15: for every Dedicated file with length in [0, 65535] and every Linear
or Cyclic file, `sim_file_to_hex` returns 30 and writes the 30 characters of
`descriptor_layout`: "0000", the 4 big-endian hex digits of the file size
(length, or rec_count x rec_len, always below 65536 for a record file), the 4
hex digits of the file id, "04", "00", the access byte ("00", "0a" READ_ONLY,
"11" NEED_PIN, "1a" both, from bits 0 and 1 of the flags only), "a0aa", "00",
"02", the structure byte ("00", "01", "03") and the record length byte ("00"
or rec_len in hex). -/
theorem descriptor_encoding (file : SimFileRec)
    (ht : file.type = SIM_FILE_EF_DEDICATED ∨ file.type = SIM_FILE_EF_LINEAR ∨
      file.type = SIM_FILE_EF_CYCLIC)
    (hlen : file.type = SIM_FILE_EF_DEDICATED → 0 ≤ file.length ∧ file.length ≤ 65535) :
    sim_file_to_hex file = (30, descriptor_layout file) ∧
    (descriptor_layout file).length = 30 ∧
    descriptor_size file < 65536 := by
  have hsize : (if file.type = SIM_FILE_EF_DEDICATED then file.length
      else (file.rec_count.val : Int) * (file.rec_len.val : Int))
      = ((descriptor_size file : Nat) : Int) := by
    unfold descriptor_size
    by_cases h : file.type = SIM_FILE_EF_DEDICATED
    · rw [if_pos h, if_pos h]
      have := (hlen h).1
      omega
    · rw [if_neg h, if_neg h]
      push_cast
      rfl
  have hrec : (if file.type = SIM_FILE_EF_DEDICATED then "00"
      else gsm_hex_from_byte (file.rec_len.val : Int)) = record_length_byte file := by
    unfold record_length_byte
    by_cases h : file.type = SIM_FILE_EF_DEDICATED
    · rw [if_pos h, if_pos h]
    · rw [if_neg h, if_neg h, gsm_hex_from_byte_nat]
  have heq : sim_file_to_hex file = (30, descriptor_layout file) := by
    rw [sim_file_to_hex_ef file ht, hsize, hrec, gsm_hex_from_short_nat,
      gsm_hex_from_short_nat]
    rfl
  refine ⟨heq, ?_, ?_⟩
  · have h30 := (sim_file_to_hex_length file ht).2
    rw [heq] at h30
    exact h30
  · unfold descriptor_size
    by_cases h : file.type = SIM_FILE_EF_DEDICATED
    · rw [if_pos h]
      have := hlen h
      omega
    · rw [if_neg h]
      have h1 : file.rec_count.val ≤ 255 := by have := file.rec_count.isLt; omega
      have h2 : file.rec_len.val ≤ 255 := by have := file.rec_len.isLt; omega
      calc file.rec_count.val * file.rec_len.val ≤ 255 * 255 := Nat.mul_le_mul h1 h2
        _ < 65536 := by decide

/-- The descriptors of `msisdn_file` (Linear, needs the PIN, 4 records of 32
bytes) and of `iccid_file` (Dedicated, read-only with other flag bits set, 10
bytes). -/
theorem descriptor_encoding_witness :
    sim_file_to_hex msisdn_file = (30, "000000806f40040011a0aa00020120") ∧
    sim_file_to_hex iccid_file = (30, "0000000a2fe204000aa0aa00020000") :=
  ⟨(descriptor_encoding msisdn_file (Or.inr (Or.inl rfl)) (by decide)).1.trans (by decide),
   (descriptor_encoding iccid_file (Or.inl rfl) (by decide)).1.trans (by decide)⟩

/-- A decimal digit character is a digit for `isdigit` and has its value. -/
theorem digitChar_digit : ∀ d : Nat, d < 10 →
    isdigit (Nat.digitChar d) = true ∧ (Nat.digitChar d).toNat - '0'.toNat = d := by
  decide

/-- A digit is neither white space nor a sign. -/
theorem isdigit_plain (c : Char) (h : isdigit c = true) :
    isspace c = false ∧ c ≠ '-' ∧ c ≠ '+' := by
  have hr : '0'.toNat ≤ c.toNat ∧ c.toNat ≤ '9'.toNat := of_decide_eq_true h
  have h0 : '0'.toNat = 48 := rfl
  have h9 : '9'.toNat = 57 := rfl
  rw [h0, h9] at hr
  have hne : ∀ d : Char, (d.toNat < 48 ∨ 57 < d.toNat) → c ≠ d := by
    intro d hd hcd
    rw [hcd] at hr
    omega
  refine ⟨?_, hne '-' (by decide), hne '+' (by decide)⟩
  unfold isspace
  simp [hne ' ' (by decide), hne '\t' (by decide), hne '\n' (by decide),
    hne '\x0b' (by decide), hne '\x0c' (by decide), hne '\r' (by decide)]

/-- The accumulator of `Nat.toDigitsCore` is a suffix of the result. -/
theorem toDigitsCore_acc (fuel : Nat) :
    ∀ (n : Nat) (ds : List Char),
      Nat.toDigitsCore 10 fuel n ds = Nat.toDigitsCore 10 fuel n [] ++ ds := by
  induction fuel with
  | zero => intro n ds; rfl
  | succ f ih =>
    intro n ds
    unfold Nat.toDigitsCore
    by_cases h : n / 10 = 0
    · simp [h]
    · simp only [h, if_false]
      rw [ih (n / 10) (Nat.digitChar (n % 10) :: ds), ih (n / 10) [Nat.digitChar (n % 10)]]
      simp

/-- One step of `Nat.toDigitsCore`: the digits of n / 10, when there are any,
then the last digit. -/
theorem toDigitsCore_step (f n : Nat) :
    Nat.toDigitsCore 10 (f + 1) n []
      = (if n / 10 = 0 then [] else Nat.toDigitsCore 10 f (n / 10) [])
          ++ [Nat.digitChar (n % 10)] := by
  show (if n / 10 = 0 then [Nat.digitChar (n % 10)]
    else Nat.toDigitsCore 10 f (n / 10) [Nat.digitChar (n % 10)]) = _
  by_cases h : n / 10 = 0
  · rw [if_pos h, if_pos h]
    rfl
  · rw [if_neg h, if_neg h, toDigitsCore_acc]

/-- The characters of a decimal text are digits. -/
theorem toDigitsCore_digits (fuel : Nat) :
    ∀ n : Nat, ∀ c ∈ Nat.toDigitsCore 10 fuel n [], isdigit c = true := by
  induction fuel with
  | zero => intro n c hc; exact absurd hc (List.not_mem_nil c)
  | succ f ih =>
    intro n c hc
    rw [toDigitsCore_step, List.mem_append] at hc
    rcases hc with hc | hc
    · by_cases h : n / 10 = 0
      · rw [if_pos h] at hc
        exact absurd hc (List.not_mem_nil c)
      · rw [if_neg h] at hc
        exact ih (n / 10) c hc
    · rw [List.mem_singleton] at hc
      rw [hc]
      exact (digitChar_digit (n % 10) (Nat.mod_lt n (by decide))).1

/-- The value of the decimal text of n is n. -/
theorem toDigitsCore_value (fuel : Nat) :
    ∀ n : Nat, n < fuel → digits_value 0 (Nat.toDigitsCore 10 fuel n []) = n := by
  induction fuel with
  | zero => intro n h; omega
  | succ f ih =>
    intro n hn
    have hd := (digitChar_digit (n % 10) (Nat.mod_lt n (by decide))).2
    rw [toDigitsCore_step]
    unfold digits_value
    rw [List.foldl_append]
    by_cases h : n / 10 = 0
    · rw [if_pos h]
      show 10 * 0 + ((Nat.digitChar (n % 10)).toNat - '0'.toNat) = n
      rw [hd]
      omega
    · rw [if_neg h]
      have hv := ih (n / 10) (by omega)
      unfold digits_value at hv
      rw [hv]
      show 10 * (n / 10) + ((Nat.digitChar (n % 10)).toNat - '0'.toNat) = n
      rw [hd]
      omega

/-- The scan of a run of digits followed by `rest` continues on `rest` with
the value of the run. -/
theorem scan_digits_append (ds rest : List Char) (h : ∀ c ∈ ds, isdigit c = true) :
    ∀ acc : Nat, scan_digits acc (ds ++ rest) = scan_digits (digits_value acc ds) rest := by
  induction ds with
  | nil => intro acc; rfl
  | cons c t ih =>
    intro acc
    show (if isdigit c then scan_digits (10 * acc + (c.toNat - '0'.toNat)) (t ++ rest)
      else (acc, c :: (t ++ rest))) = _
    rw [if_pos (h c (List.mem_cons_self c t)), ih (fun d hd => h d (List.mem_cons_of_mem c hd))]
    rfl

/-- The scan of digits stops at once on an input that does not start with a
digit. -/
theorem scan_digits_stop (acc : Nat) (rest : List Char)
    (h : ∀ c t, rest = c :: t → isdigit c = false) : scan_digits acc rest = (acc, rest) := by
  cases rest with
  | nil => rfl
  | cons c t =>
    show (if isdigit c then _ else (acc, c :: t)) = _
    rw [if_neg (by rw [h c t rfl]; decide)]

/-- The decimal integer read on an input that starts with a digit: the value
of the digits scanned. -/
theorem scan_decimal_digit (c : Char) (t : List Char) (h : isdigit c = true) :
    scan_decimal (c :: t) = some (((scan_digits 0 (c :: t)).1 : Int), (scan_digits 0 (c :: t)).2) := by
  obtain ⟨hs, hm, hp⟩ := isdigit_plain c h
  have hsign : (match c :: t with
      | '-' :: u => (true, u)
      | '+' :: u => (false, u)
      | _ => (false, c :: t)) = (false, c :: t) := by
    split
    · rename_i heq
      exact absurd (List.cons.inj heq).1 hm
    · rename_i heq
      exact absurd (List.cons.inj heq).1 hp
    · rfl
  unfold scan_decimal
  rw [List.dropWhile_cons_of_neg (by rw [hs]; decide)]
  simp only [hsign, h, if_true]
  rfl

/-- The decimal text of a natural number, followed by an input that does not
start with a digit, is read back by `scan_decimal`. -/
theorem scan_decimal_repr (n : Nat) (rest : List Char)
    (h : ∀ c t, rest = c :: t → isdigit c = false) :
    scan_decimal ((Nat.repr n).data ++ rest) = some ((n : Int), rest) := by
  have hdata : (Nat.repr n).data = Nat.toDigitsCore 10 (n + 1) n [] := rfl
  have hall := toDigitsCore_digits (n + 1) n
  have hscan : scan_digits 0 (Nat.toDigitsCore 10 (n + 1) n [] ++ rest) = (n, rest) := by
    rw [scan_digits_append _ _ hall, toDigitsCore_value (n + 1) n (Nat.lt_succ_self n),
      scan_digits_stop n rest h]
  rw [hdata]
  cases hl : Nat.toDigitsCore 10 (n + 1) n [] with
  | nil =>
    rw [toDigitsCore_step] at hl
    exact absurd hl (by simp)
  | cons c t =>
    rw [hl] at hscan hall
    show scan_decimal (c :: (t ++ rest)) = _
    have hscan2 : scan_digits 0 (c :: (t ++ rest)) = (n, rest) := hscan
    rw [scan_decimal_digit c (t ++ rest) (hall c (List.mem_cons_self c t)), hscan2]

/-- The decimal text of an integer, followed by an input that does not start
with a digit, is read back by `scan_decimal`. -/
theorem scan_decimal_fmt_d (v : Int) (rest : List Char)
    (h : ∀ c t, rest = c :: t → isdigit c = false) :
    scan_decimal ((fmt_d v).data ++ rest) = some (v, rest) := by
  cases v with
  | ofNat n => exact scan_decimal_repr n rest h
  | negSucc m =>
    have hdata : (fmt_d (Int.negSucc m)).data = '-' :: (Nat.repr (m + 1)).data := rfl
    have hall := toDigitsCore_digits (m + 1 + 1) (m + 1)
    have hrepr : (Nat.repr (m + 1)).data = Nat.toDigitsCore 10 (m + 1 + 1) (m + 1) [] := rfl
    have hscan : scan_digits 0 (Nat.toDigitsCore 10 (m + 1 + 1) (m + 1) [] ++ rest)
        = (m + 1, rest) := by
      rw [scan_digits_append _ _ hall,
        toDigitsCore_value (m + 1 + 1) (m + 1) (Nat.lt_succ_self _), scan_digits_stop _ rest h]
    rw [hdata, hrepr]
    cases hl : Nat.toDigitsCore 10 (m + 1 + 1) (m + 1) [] with
    | nil =>
      rw [toDigitsCore_step] at hl
      exact absurd hl (by simp)
    | cons c t =>
      rw [hl] at hscan hall
      have hc := hall c (List.mem_cons_self c t)
      have hscan2 : scan_digits 0 (c :: (t ++ rest)) = (m + 1, rest) := hscan
      show scan_decimal ('-' :: (c :: (t ++ rest))) = _
      unfold scan_decimal
      rw [List.dropWhile_cons_of_neg (by decide)]
      simp only [hc, if_true, hscan2]
      rfl

/-- The decimal text of an `int`, followed by an input that does not start
with a digit, is read back by `%d`. -/
theorem scan_d_fmt_d (v : Int) (hv : int_range v) (rest : List Char)
    (h : ∀ c t, rest = c :: t → isdigit c = false) :
    scan_d ((fmt_d v).data ++ rest) = some (v, rest) := by
  unfold scan_d
  rw [scan_decimal_fmt_d v rest h]
  show some (store_int v, rest) = some (v, rest)
  rw [store_int_of_range v hv]

/-- A comma is not a digit. -/
theorem comma_rest (l : List Char) : ∀ c t, ',' :: l = c :: t → isdigit c = false := by
  intro c t h
  rw [← (List.cons.inj h).1]
  decide

/-- The characters of a command text of five integers. -/
theorem crsm_text_data (command id p1 p2 p3 : Int) :
    (crsm_text command id p1 p2 p3).data
      = "+CRSM=".data ++ ((fmt_d command).data ++ ',' :: ((fmt_d id).data ++ ',' ::
          ((fmt_d p1).data ++ ',' :: ((fmt_d p2).data ++ ',' :: ((fmt_d p3).data ++ []))))) := by
  unfold crsm_text
  simp only [String.data_append, List.append_assoc, List.append_nil]
  rfl

/-- The call of `sscanf` on the command text of five values of `int` returns 5
and reads the five values back. -/
theorem sscanf_crsm_text (command id p1 p2 p3 : Int)
    (hc : int_range command) (hi : int_range id) (h1 : int_range p1) (h2 : int_range p2)
    (h3 : int_range p3) :
    sscanf_crsm (crsm_text command id p1 p2 p3) = some (command, id, p1, p2, p3) := by
  unfold sscanf_crsm
  rw [crsm_text_data]
  have htake : ∀ l : List Char, ("+CRSM=".data ++ l).take 6 = "+CRSM=".data := fun _ => rfl
  have hdrop : ∀ l : List Char, ("+CRSM=".data ++ l).drop 6 = l := fun _ => rfl
  rw [htake, hdrop, if_pos rfl]
  simp only [Option.bind_eq_bind, Option.some_bind, Option.pure_def]
  rw [scan_d_fmt_d command hc _ (comma_rest _)]
  simp only [Option.some_bind, scan_char, if_true]
  rw [scan_d_fmt_d id hi _ (comma_rest _)]
  simp only [Option.some_bind, scan_char, if_true]
  rw [scan_d_fmt_d p1 h1 _ (comma_rest _)]
  simp only [Option.some_bind, scan_char, if_true]
  rw [scan_d_fmt_d p2 h2 _ (comma_rest _)]
  simp only [Option.some_bind, scan_char, if_true]
  rw [scan_d_fmt_d p3 h3 [] (fun c t h => absurd h (by simp))]
  rfl

/-! ## Theorems: the dispatcher with dynamic records -/

/-- With dynamic records, a command text that `sscanf` reads as five integers
is answered by the switch on the command code. -/
theorem asimcard_io_dynamic (sim : ASimCardRec) (cmd : String) (command id p1 p2 p3 : Int)
    (h : sscanf_crsm cmd = some (command, id, p1, p2, p3)) :
    asimcard_io true sim cmd
      = some (if command = 192 then asimcard_io_get_response sim id p1 p2 p3
              else if command = 176 then asimcard_io_read_binary sim id p1 p2 p3
              else if command = 178 then asimcard_io_read_record sim id p1 p2 p3
              else "+CRSM: 106,129") := by
  have hstart : ¬ (cmd.data.take 6 ≠ "+CRSM=".data) :=
    fun hn => hn (sscanf_crsm_start cmd _ h)
  unfold asimcard_io
  rw [if_neg hstart, if_pos rfl, h]
  show (if command = (192 : Int) then _ else _) = _
  by_cases h1 : command = 192
  · rw [if_pos h1, if_pos h1]
  · rw [if_neg h1, if_neg h1]
    show (if command = (176 : Int) then _ else _) = _
    by_cases h2 : command = 176
    · rw [if_pos h2, if_pos h2]
    · rw [if_neg h2, if_neg h2]
      show (if command = (178 : Int) then _ else _) = _
      by_cases h3 : command = 178
      · rw [if_pos h3, if_pos h3]
      · rw [if_neg h3, if_neg h3]
        rfl

/-- C17: with dynamic records, the command text of five integers (values of
`int`) whose command code is not 192, 176 or 178 is answered "+CRSM: 106,129"
whatever the card and the other four integers are; the codes 192, 176 and 178
are routed to GET_RESPONSE, READ_BINARY and READ_RECORD with the same id, p1,
p2, p3. The same holds for every text from which `sscanf` stores these five
values. -/
theorem dispatch_by_command (sim : ASimCardRec) (command id p1 p2 p3 : Int)
    (hc : int_range command) (hi : int_range id) (h1 : int_range p1) (h2 : int_range p2)
    (h3 : int_range p3) :
    (command ≠ 192 → command ≠ 176 → command ≠ 178 →
      asimcard_io true sim (crsm_text command id p1 p2 p3) = some "+CRSM: 106,129") ∧
    asimcard_io true sim (crsm_text 192 id p1 p2 p3)
      = some (asimcard_io_get_response sim id p1 p2 p3) ∧
    asimcard_io true sim (crsm_text 176 id p1 p2 p3)
      = some (asimcard_io_read_binary sim id p1 p2 p3) ∧
    asimcard_io true sim (crsm_text 178 id p1 p2 p3)
      = some (asimcard_io_read_record sim id p1 p2 p3) ∧
    (∀ cmd : String, sscanf_crsm cmd = some (command, id, p1, p2, p3) →
      (command ≠ 192 → command ≠ 176 → command ≠ 178 →
        asimcard_io true sim cmd = some "+CRSM: 106,129") ∧
      (command = 192 → asimcard_io true sim cmd
        = some (asimcard_io_get_response sim id p1 p2 p3)) ∧
      (command = 176 → asimcard_io true sim cmd
        = some (asimcard_io_read_binary sim id p1 p2 p3)) ∧
      (command = 178 → asimcard_io true sim cmd
        = some (asimcard_io_read_record sim id p1 p2 p3))) := by
  have hgen : ∀ cmd : String, sscanf_crsm cmd = some (command, id, p1, p2, p3) →
      (command ≠ 192 → command ≠ 176 → command ≠ 178 →
        asimcard_io true sim cmd = some "+CRSM: 106,129") ∧
      (command = 192 → asimcard_io true sim cmd
        = some (asimcard_io_get_response sim id p1 p2 p3)) ∧
      (command = 176 → asimcard_io true sim cmd
        = some (asimcard_io_read_binary sim id p1 p2 p3)) ∧
      (command = 178 → asimcard_io true sim cmd
        = some (asimcard_io_read_record sim id p1 p2 p3)) := by
    intro cmd h
    rw [asimcard_io_dynamic sim cmd command id p1 p2 p3 h]
    refine ⟨?_, ?_, ?_, ?_⟩
    · intro g1 g2 g3
      rw [if_neg g1, if_neg g2, if_neg g3]
    · intro g1
      rw [if_pos g1]
    · intro g2
      rw [if_neg (by rw [g2]; decide), if_pos g2]
    · intro g3
      rw [if_neg (by rw [g3]; decide), if_neg (by rw [g3]; decide), if_pos g3]
  refine ⟨(hgen _ (sscanf_crsm_text command id p1 p2 p3 hc hi h1 h2 h3)).1, ?_, ?_, ?_, hgen⟩
  · rw [asimcard_io_dynamic sim _ 192 id p1 p2 p3
      (sscanf_crsm_text 192 id p1 p2 p3 (by decide) hi h1 h2 h3)]
    rfl
  · rw [asimcard_io_dynamic sim _ 176 id p1 p2 p3
      (sscanf_crsm_text 176 id p1 p2 p3 (by decide) hi h1 h2 h3)]
    rfl
  · rw [asimcard_io_dynamic sim _ 178 id p1 p2 p3
      (sscanf_crsm_text 178 id p1 p2 p3 (by decide) hi h1 h2 h3)]
    rfl

/-- The dispatch on `sample_card`: an UPDATE BINARY code (214) is not
supported, the three known codes reach their handlers, and a text whose first
number is 4294967472, stored as 176 in the `int`, is served as READ_BINARY. -/
theorem dispatch_by_command_witness :
    crsm_text 214 28589 0 0 4 = "+CRSM=214,28589,0,0,4" ∧
    asimcard_io true sample_card "+CRSM=214,28589,0,0,4" = some "+CRSM: 106,129" ∧
    asimcard_io true sample_card "+CRSM=176,28589,0,0,4" = some "+CRSM: 144,0,00000003" ∧
    asimcard_io true sample_card "+CRSM=178,28589,1,4,4" = some "+CRSM: 106,129" ∧
    asimcard_io true sample_card "+CRSM=192,28589,0,0,15"
      = some "+CRSM: 144,0,000000046fad04000aa0aa00020000" ∧
    asimcard_io true sample_card "+CRSM=4294967472,28589,0,0,4"
      = some "+CRSM: 144,0,00000003" :=
  ⟨by decide,
   (dispatch_by_command sample_card 214 28589 0 0 4 (by decide) (by decide) (by decide)
      (by decide) (by decide)).1 (by decide) (by decide) (by decide),
   (dispatch_by_command sample_card 176 28589 0 0 4 (by decide) (by decide) (by decide)
      (by decide) (by decide)).2.2.1.trans (by decide),
   (dispatch_by_command sample_card 178 28589 1 4 4 (by decide) (by decide) (by decide)
      (by decide) (by decide)).2.2.2.1.trans (by decide),
   (dispatch_by_command sample_card 192 28589 0 0 15 (by decide) (by decide) (by decide)
      (by decide) (by decide)).2.1.trans (by decide),
   (((dispatch_by_command sample_card 176 28589 0 0 4 (by decide) (by decide) (by decide)
      (by decide) (by decide)).2.2.2.2 "+CRSM=4294967472,28589,0,0,4" (by decide)).2.2.1
      rfl).trans (by decide)⟩

/-! ## Theorems: the dispatcher with the static table -/

/-- With the static table, a command text with the "+CRSM=" start other than
the MSISDN record command is answered by the table lookup. -/
theorem asimcard_io_static (sim : ASimCardRec) (cmd : String)
    (hstart : cmd.data.take 6 = "+CRSM=".data) (hm : cmd ≠ "+CRSM=178,28480,1,4,32") :
    asimcard_io false sim cmd = some (answers_lookup answers cmd) := by
  unfold asimcard_io
  rw [if_neg (fun h => h hstart)]
  show (if "+CRSM=178,28480,1,4,32" = cmd then _ else some (answers_lookup answers cmd)) = _
  rw [if_neg (fun h => hm h.symm)]

/-- Every command of the table has the "+CRSM=" start and is answered by the
lookup with the answer of its own entry. -/
theorem answers_lookup_own : ∀ entry ∈ answers,
    entry.1.data.take 6 = "+CRSM=".data ∧ answers_lookup answers entry.1 = entry.2 := by
  decide

/-- C18: with the static table, every command text that starts with "+CRSM=",
is equal to no command of the table and is not the MSISDN record command is
answered "+CRSM: 106,134". Equality of texts is exact, character for
character. -/
theorem static_unrecognised (sim : ASimCardRec) (cmd : String)
    (hstart : cmd.data.take 6 = "+CRSM=".data)
    (htable : ∀ entry ∈ answers, entry.1 ≠ cmd)
    (hm : cmd ≠ "+CRSM=178,28480,1,4,32") :
    asimcard_io false sim cmd = some "+CRSM: 106,134" := by
  rw [asimcard_io_static sim cmd hstart hm]
  rcases answers_lookup_cases answers cmd with h | ⟨entry, hmem, heq, _⟩
  · rw [h]
    rfl
  · exact absurd heq (htable entry hmem)

/-- Table commands with an extra, a missing or a changed character, also a
changed space, on `sample_card`. -/
theorem static_unrecognised_witness :
    asimcard_io false sample_card "+CRSM=176,28485,0,0,6 " = some "+CRSM: 106,134" ∧
    asimcard_io false sample_card "+CRSM=192,12258,0,0,1" = some "+CRSM: 106,134" ∧
    asimcard_io false sample_card "+CRSM=176,28485,0,0,7" = some "+CRSM: 106,134" ∧
    asimcard_io false sample_card "+CRSM=176, 28485,0,0,6" = some "+CRSM: 106,134" :=
  ⟨static_unrecognised sample_card "+CRSM=176,28485,0,0,6 " (by decide) (by decide) (by decide),
   static_unrecognised sample_card "+CRSM=192,12258,0,0,1" (by decide) (by decide) (by decide),
   static_unrecognised sample_card "+CRSM=176,28485,0,0,7" (by decide) (by decide) (by decide),
   static_unrecognised sample_card "+CRSM=176, 28485,0,0,6" (by decide) (by decide)
     (by decide)⟩

/-- C19: with the static table, for every card and every entry of the table
other than the MSISDN record entry, the command of the entry is answered with
the answer of the entry; the commands of the table are pairwise distinct; in
particular "+CRSM=192,12258,0,0,15" and "+CRSM=176,28485,0,0,6" get the
answers of the ICCID descriptor and of the CBMI content. -/
theorem static_table_answers (sim : ASimCardRec) :
    (∀ entry ∈ answers, entry.1 ≠ "+CRSM=178,28480,1,4,32" →
      asimcard_io false sim entry.1 = some entry.2) ∧
    (answers.map (fun entry => entry.1)).Nodup ∧
    asimcard_io false sim "+CRSM=192,12258,0,0,15"
      = some "+CRSM: 144,0,0000000a2fe204000fa0aa01020000" ∧
    asimcard_io false sim "+CRSM=176,28485,0,0,6" = some "+CRSM: 144,0,b000fffff000" := by
  have hall : ∀ entry ∈ answers, entry.1 ≠ "+CRSM=178,28480,1,4,32" →
      asimcard_io false sim entry.1 = some entry.2 := by
    intro entry hmem hm
    obtain ⟨hstart, hown⟩ := answers_lookup_own entry hmem
    rw [asimcard_io_static sim entry.1 hstart hm, hown]
  refine ⟨hall, by decide, ?_, ?_⟩
  · exact hall ("+CRSM=192,12258,0,0,15", "+CRSM: 144,0,0000000a2fe204000fa0aa01020000")
      (by decide) (by decide)
  · exact hall ("+CRSM=176,28485,0,0,6", "+CRSM: 144,0,b000fffff000") (by decide) (by decide)

/-! ## Theorems: the MSISDN record -/

/-- The decimal text of a value below 10 is its digit. -/
theorem repr_digit : ∀ a : Nat, a < 10 →
    Nat.repr a = String.mk [Nat.digitChar a] ∧ (Nat.digitChar a != 'f') = true := by
  decide

/-- The text printed by `%d` for a value between 0 and 9 is its digit. -/
theorem fmt_d_digit (a : Nat) (h : a < 10) : fmt_d (a : Int) = String.mk [Nat.digitChar a] :=
  (repr_digit a h).1

/-- The MSISDN record response of a card whose port is n >= 0 and whose
instance id is k <= 8, character by character. -/
theorem msisdn_text (sim : ASimCardRec) (n k : Nat) (hn : sim.port = (n : Int))
    (hk : sim.instance_id = (k : Int)) (hk1 : k ≤ 8) :
    asimcard_io false sim "+CRSM=178,28480,1,4,32"
      = some (String.mk ("+CRSM: 144,0,ffffffffffffffffffffffffffffffffffff0781515525".data
          ++ [Nat.digitChar (n / 1000 % 10), Nat.digitChar (k + 1), Nat.digitChar (n / 10 % 10),
              Nat.digitChar (n / 100 % 10), 'f', Nat.digitChar (n % 10)]
          ++ "ffffffffffff".data)) := by
  have e1 : Int.tmod (Int.tdiv (n : Int) 1000) 10 = ((n / 1000 % 10 : Nat) : Int) := rfl
  have e2 : (k : Int) + 1 = ((k + 1 : Nat) : Int) := rfl
  have e3 : Int.tmod (Int.tdiv (n : Int) 10) 10 = ((n / 10 % 10 : Nat) : Int) := rfl
  have e4 : Int.tmod (Int.tdiv (n : Int) 100) 10 = ((n / 100 % 10 : Nat) : Int) := rfl
  have e5 : Int.tmod (n : Int) 10 = ((n % 10 : Nat) : Int) := rfl
  have hstart : ¬ (("+CRSM=178,28480,1,4,32" : String).data.take 6 ≠ "+CRSM=".data) := by
    decide
  unfold asimcard_io
  rw [if_neg hstart]
  show (if "+CRSM=178,28480,1,4,32" = "+CRSM=178,28480,1,4,32" then _ else _) = _
  rw [if_pos rfl, hn, hk, e1, e2, e3, e4, e5,
    fmt_d_digit _ (Nat.mod_lt _ (by decide)), fmt_d_digit (k + 1) (by omega),
    fmt_d_digit _ (Nat.mod_lt _ (by decide)), fmt_d_digit _ (Nat.mod_lt _ (by decide)),
    fmt_d_digit _ (Nat.mod_lt _ (by decide))]
  rfl

/-- C20: for a card with 0 <= port <= 9999 and 0 <= instance_id <= 8 the
MSISDN record command is answered "+CRSM: 144,0," + 36 'f' + "0781515525" +
d1 d2 d3 d4 + "f" + d5 + 12 'f', where d1 = (port / 1000) % 10,
d2 = instance_id + 1, d3 = (port / 10) % 10, d4 = (port / 100) % 10 and
d5 = port % 10 are single decimal digits; the nibble-swapped number bytes read
"155552", the digit instance_id + 1 and the four zero-padded digits of the
port, 11 digits, the number 15555200000 + (instance_id + 1) x 10000 + port. -/
theorem msisdn_response (sim : ASimCardRec)
    (hp0 : 0 ≤ sim.port) (hp1 : sim.port ≤ 9999)
    (hi0 : 0 ≤ sim.instance_id) (hi1 : sim.instance_id ≤ 8) :
    asimcard_io false sim "+CRSM=178,28480,1,4,32"
      = some ("+CRSM: 144,0," ++ String.mk (List.replicate 36 'f') ++ "0781515525"
          ++ fmt_d (sim.port / 1000 % 10) ++ fmt_d (sim.instance_id + 1)
          ++ fmt_d (sim.port / 10 % 10) ++ fmt_d (sim.port / 100 % 10)
          ++ "f" ++ fmt_d (sim.port % 10) ++ String.mk (List.replicate 12 'f')) ∧
    ((fmt_d (sim.port / 1000 % 10)).length = 1 ∧ (fmt_d (sim.instance_id + 1)).length = 1 ∧
      (fmt_d (sim.port / 10 % 10)).length = 1 ∧ (fmt_d (sim.port / 100 % 10)).length = 1 ∧
      (fmt_d (sim.port % 10)).length = 1) ∧
    (asimcard_io false sim "+CRSM=178,28480,1,4,32").map msisdn_number
      = some ("155552" ++ fmt_d (sim.instance_id + 1) ++ port_digits sim.port.toNat) ∧
    (asimcard_io false sim "+CRSM=178,28480,1,4,32").map
        (fun r => (msisdn_number r).length) = some 11 ∧
    (asimcard_io false sim "+CRSM=178,28480,1,4,32").map
        (fun r => digits_value 0 (msisdn_number r).data)
      = some (15555200000 + (sim.instance_id.toNat + 1) * 10000 + sim.port.toNat) := by
  obtain ⟨n, hn⟩ := Int.eq_ofNat_of_zero_le hp0
  obtain ⟨k, hk⟩ := Int.eq_ofNat_of_zero_le hi0
  have hn1 : n ≤ 9999 := by omega
  have hk1 : k ≤ 8 := by omega
  have d1 : sim.port / 1000 % 10 = ((n / 1000 % 10 : Nat) : Int) := by omega
  have d2 : sim.instance_id + 1 = ((k + 1 : Nat) : Int) := by omega
  have d3 : sim.port / 10 % 10 = ((n / 10 % 10 : Nat) : Int) := by omega
  have d4 : sim.port / 100 % 10 = ((n / 100 % 10 : Nat) : Int) := by omega
  have d5 : sim.port % 10 = ((n % 10 : Nat) : Int) := by omega
  have hnat : sim.port.toNat = n := by omega
  have hknat : sim.instance_id.toNat = k := by omega
  have b1 : n / 1000 % 10 < 10 := Nat.mod_lt _ (by decide)
  have b2 : k + 1 < 10 := by omega
  have b3 : n / 10 % 10 < 10 := Nat.mod_lt _ (by decide)
  have b4 : n / 100 % 10 < 10 := Nat.mod_lt _ (by decide)
  have b5 : n % 10 < 10 := Nat.mod_lt _ (by decide)
  rw [msisdn_text sim n k hn hk hk1, d1, d2, d3, d4, d5, hnat, hknat,
    fmt_d_digit _ b1, fmt_d_digit _ b2, fmt_d_digit _ b3, fmt_d_digit _ b4, fmt_d_digit _ b5]
  have hnum : msisdn_number
      (String.mk ("+CRSM: 144,0,ffffffffffffffffffffffffffffffffffff0781515525".data
          ++ [Nat.digitChar (n / 1000 % 10), Nat.digitChar (k + 1), Nat.digitChar (n / 10 % 10),
              Nat.digitChar (n / 100 % 10), 'f', Nat.digitChar (n % 10)]
          ++ "ffffffffffff".data))
      = String.mk ['1', '5', '5', '5', '5', '2', Nat.digitChar (k + 1),
          Nat.digitChar (n / 1000 % 10), Nat.digitChar (n / 100 % 10),
          Nat.digitChar (n / 10 % 10), Nat.digitChar (n % 10)] := by
    show String.mk (List.filter (fun c => c != 'f')
      ['1', '5', '5', '5', '5', '2', Nat.digitChar (k + 1), Nat.digitChar (n / 1000 % 10),
        Nat.digitChar (n / 100 % 10), Nat.digitChar (n / 10 % 10), Nat.digitChar (n % 10), 'f'])
      = _
    simp only [List.filter, (repr_digit _ b1).2, (repr_digit _ b2).2, (repr_digit _ b3).2,
      (repr_digit _ b4).2, (repr_digit _ b5).2]
    rfl
  refine ⟨rfl, ⟨rfl, rfl, rfl, rfl, rfl⟩, ?_, ?_, ?_⟩
  · rw [Option.map_some', hnum]
    rfl
  · rw [Option.map_some', hnum]
    rfl
  · rw [Option.map_some', hnum]
    have v1 := (digitChar_digit _ b1).2
    have v2 := (digitChar_digit _ b2).2
    have v3 := (digitChar_digit _ b3).2
    have v4 := (digitChar_digit _ b4).2
    have v5 := (digitChar_digit _ b5).2
    have h0 : '0'.toNat = 48 := rfl
    rw [h0] at v1 v2 v3 v4 v5
    show some (10 * (10 * (10 * (10 * (10 * (10 * (10 * (10 * (10 * (10 * (10 * 0 + 1) + 5) + 5)
      + 5) + 5) + 2) + ((Nat.digitChar (k + 1)).toNat - 48))
      + ((Nat.digitChar (n / 1000 % 10)).toNat - 48))
      + ((Nat.digitChar (n / 100 % 10)).toNat - 48))
      + ((Nat.digitChar (n / 10 % 10)).toNat - 48))
      + ((Nat.digitChar (n % 10)).toNat - 48)) = _
    rw [v1, v2, v3, v4, v5]
    congr 1
    omega

/-- The first device of the emulator on port 5554: the digits are
(5, 1, 5, 5, 4) and the number is 15555215554. -/
theorem msisdn_response_witness :
    asimcard_io false first_card "+CRSM=178,28480,1,4,32"
      = some "+CRSM: 144,0,ffffffffffffffffffffffffffffffffffff07815155255155f4ffffffffffff" ∧
    (asimcard_io false first_card "+CRSM=178,28480,1,4,32").map msisdn_number
      = some "15555215554" ∧
    (asimcard_io false first_card "+CRSM=178,28480,1,4,32").map
        (fun r => digits_value 0 (msisdn_number r).data) = some 15555215554 :=
  have h := msisdn_response first_card (by decide) (by decide) (by decide) (by decide)
  ⟨h.1.trans (by decide), h.2.2.1.trans (by decide), h.2.2.2.2.trans (by decide)⟩

/-! ## Theorems: the shared retry counter -/

/-- A call of `check_pin` never changes the stored PUK. -/
theorem check_pin_keeps_puk (sim : ASimCardRec) (pin : String) :
    (asimcard_check_pin sim pin).1.puk = sim.puk := by
  unfold asimcard_check_pin
  split
  · rfl
  · split
    · rfl
    · split
      · split <;> rfl
      · rfl

/-- C22: from a card in PIN with `pin_retries` 0, three wrong `check_pin`
calls leave the card in PUK with `pin_retries` 3; from there the card is still
in PUK after two wrong `check_puk` calls (counter 5) and is ABSENT after the
third (counter 6): three PUK attempts, not six. -/
theorem shared_retry_counter (sim : ASimCardRec) (a b c : String) (u v w : String × String)
    (hs : sim.status = A_SIM_STATUS_PIN) (hr : sim.pin_retries = 0)
    (ha : a ≠ sim.pin) (hb : b ≠ sim.pin) (hc : c ≠ sim.pin)
    (hu : u.1 ≠ sim.puk) (hv : v.1 ≠ sim.puk) (hw : w.1 ≠ sim.puk) :
    (check_pin_seq sim [a, b, c]).status = A_SIM_STATUS_PUK ∧
    (check_pin_seq sim [a, b, c]).pin_retries = 3 ∧
    (check_puk_seq (check_pin_seq sim [a, b, c]) [u]).status = A_SIM_STATUS_PUK ∧
    (check_puk_seq (check_pin_seq sim [a, b, c]) [u, v]).status = A_SIM_STATUS_PUK ∧
    (check_puk_seq (check_pin_seq sim [a, b, c]) [u, v]).pin_retries = 5 ∧
    (check_puk_seq (check_pin_seq sim [a, b, c]) [u, v, w]).status = A_SIM_STATUS_ABSENT ∧
    (check_puk_seq (check_pin_seq sim [a, b, c]) [u, v, w]).pin_retries = 6 := by
  obtain ⟨p1, r1, s1⟩ := check_pin_wrong_step sim a hs ha
  rw [hr, if_neg (by decide)] at s1
  rw [hr] at r1
  have k1 := check_pin_keeps_puk sim a
  obtain ⟨p2, r2, s2⟩ := check_pin_wrong_step (asimcard_check_pin sim a).1 b s1 (by rw [p1]; exact hb)
  rw [r1, if_neg (by decide)] at s2
  rw [r1] at r2
  rw [p1] at p2
  have k2 := check_pin_keeps_puk (asimcard_check_pin sim a).1 b
  rw [k1] at k2
  obtain ⟨_, r3, s3⟩ := check_pin_wrong_step
    (asimcard_check_pin (asimcard_check_pin sim a).1 b).1 c s2 (by rw [p2]; exact hc)
  rw [r2, if_pos (by decide)] at s3
  rw [r2] at r3
  have k3 := check_pin_keeps_puk (asimcard_check_pin (asimcard_check_pin sim a).1 b).1 c
  rw [k2] at k3
  have hseq : check_pin_seq sim [a, b, c]
      = (asimcard_check_pin (asimcard_check_pin (asimcard_check_pin sim a).1 b).1 c).1 := rfl
  rw [hseq]
  generalize (asimcard_check_pin (asimcard_check_pin (asimcard_check_pin sim a).1 b).1 c).1
    = locked at r3 s3 k3
  obtain ⟨q1, t1, e1⟩ := check_puk_wrong_step locked u.1 u.2 s3 (by rw [k3]; exact hu)
  rw [r3, if_neg (by decide)] at e1
  rw [r3] at t1
  rw [k3] at q1
  obtain ⟨q2, t2, e2⟩ := check_puk_wrong_step (asimcard_check_puk locked u.1 u.2).1 v.1 v.2 e1
    (by rw [q1]; exact hv)
  rw [t1, if_neg (by decide)] at e2
  rw [t1] at t2
  rw [q1] at q2
  obtain ⟨_, t3, e3⟩ := check_puk_wrong_step
    (asimcard_check_puk (asimcard_check_puk locked u.1 u.2).1 v.1 v.2).1 w.1 w.2 e2
    (by rw [q2]; exact hw)
  rw [t2, if_pos (by decide)] at e3
  rw [t2] at t3
  refine ⟨s3, ?_, e1, e2, ?_, e3, ?_⟩
  · rw [r3]; decide
  · show (asimcard_check_puk (asimcard_check_puk locked u.1 u.2).1 v.1 v.2).1.pin_retries = 5
    rw [t2]; decide
  · show (asimcard_check_puk (asimcard_check_puk (asimcard_check_puk locked u.1 u.2).1
      v.1 v.2).1 w.1 w.2).1.pin_retries = 6
    rw [t3]; decide

/-- The statement on a created card put into PIN: wrong PINs "1111", "2222",
"3333", then wrong PUKs. -/
theorem shared_retry_counter_witness :
    (check_pin_seq (asimcard_set_status first_card A_SIM_STATUS_PIN)
      ["1111", "2222", "3333"]).pin_retries = 3 ∧
    (check_puk_seq (check_pin_seq (asimcard_set_status first_card A_SIM_STATUS_PIN)
      ["1111", "2222", "3333"])
      [("00000001", "1111"), ("00000002", "1111")]).status = A_SIM_STATUS_PUK ∧
    (check_puk_seq (check_pin_seq (asimcard_set_status first_card A_SIM_STATUS_PIN)
      ["1111", "2222", "3333"])
      [("00000001", "1111"), ("00000002", "1111"), ("00000003", "1111")]).status
      = A_SIM_STATUS_ABSENT :=
  have h := shared_retry_counter (asimcard_set_status first_card A_SIM_STATUS_PIN)
    "1111" "2222" "3333" ("00000001", "1111") ("00000002", "1111") ("00000003", "1111")
    (by decide) (by decide) (by decide) (by decide) (by decide) (by decide) (by decide)
    (by decide)
  ⟨h.2.1, h.2.2.2.1, h.2.2.2.2.2.1⟩

/-! ## Theorems: the EXECUTION_ERROR response -/

/-- A response that starts with the normal ending is not the EXECUTION_ERROR
response. -/
theorem normal_ne_execution_error (payload : String) :
    "+CRSM: 144,0," ++ payload ≠ "+CRSM: 100,0" := by
  intro h
  have hd : (("+CRSM: 144,0," ++ payload).data.take 9) = ("+CRSM: 100,0" : String).data.take 9 := by
    rw [h]
  have hl : ("+CRSM: 144,0," ++ payload).data.take 9 = "+CRSM: 14".data := rfl
  rw [hl] at hd
  exact absurd hd (by decide)

/-- READ_RECORD never answers EXECUTION_ERROR. -/
theorem read_record_no_execution_error (sim : ASimCardRec) (id p1 p2 p3 : Int) :
    asimcard_io_read_record sim id p1 p2 p3 ≠ "+CRSM: 100,0" := by
  cases hf : asimcard_ef_find sim id with
  | none =>
    rw [read_record_not_found sim id p1 p2 p3 ((ef_find_none_iff sim id).mp hf)]
    decide
  | some ef =>
    by_cases hp : p2 ≠ 4 ∨ p1 ≤ 0
    · have h : asimcard_io_read_record sim id p1 p2 p3 = "+CRSM: 106,134" := by
        unfold asimcard_io_read_record
        rw [hf]
        show (if p2 ≠ (4 : Int) ∨ p1 ≤ 0 then _ else _) = _
        rw [if_pos hp]
        rfl
      rw [h]
      decide
    · have h2 : p2 = 4 := by
        by_contra hn
        exact hp (Or.inl hn)
      have h1 : 0 < p1 := by
        by_contra hn
        exact hp (Or.inr (by omega))
      rw [h2]
      by_cases ht : ef.type ≠ SIM_FILE_EF_LINEAR
      · rw [read_record_not_linear sim id p1 p3 ef hf h1 ht]
        decide
      · have htl : ef.type = SIM_FILE_EF_LINEAR := by
          by_contra hn
          exact ht hn
        have hunf : asimcard_io_read_record sim id p1 4 p3
            = (if (ef.rec_count.val : Int) < p1 then "+CRSM: 106,131"
               else if (ef.rec_len.val : Int) < p3 then "+CRSM: 103,0"
               else if (asimcard_ef_read_linear (some ef) (int_to_byte p1)).1 < 0
                 then "+CRSM: 100,0"
               else "+CRSM: 144,0," ++ (asimcard_ef_read_linear (some ef) (int_to_byte p1)).2) := by
          unfold asimcard_io_read_record
          rw [hf]
          show (if (4 : Int) ≠ (4 : Int) ∨ p1 ≤ 0 then _ else _) = _
          rw [if_neg (by rintro (h | h); exact h rfl; omega), if_neg ht]
          rfl
        rw [hunf]
        by_cases hc : (ef.rec_count.val : Int) < p1
        · rw [if_pos hc]
          decide
        · rw [if_neg hc]
          by_cases hl : (ef.rec_len.val : Int) < p3
          · rw [if_pos hl]
            decide
          · rw [if_neg hl]
            have hlt : ef.rec_count.val < 256 := ef.rec_count.isLt
            have hb : (((int_to_byte p1).val : Nat) : Int) = p1 :=
              int_to_byte_val p1 (by omega) (by omega)
            have hrl := read_linear_in_range ef (int_to_byte p1) htl (by omega)
            rw [hrl, if_neg (show ¬ ((ef.rec_len.val : Int) < 0) by omega)]
            exact normal_ne_execution_error _

/-- READ_BINARY never answers EXECUTION_ERROR when the file it finds, if
Dedicated, has a length that is not negative. -/
theorem read_binary_no_execution_error (sim : ASimCardRec) (id p1 p2 p3 : Int)
    (hlen : ∀ ef, asimcard_ef_find sim id = some ef → ef.type = SIM_FILE_EF_DEDICATED →
      0 ≤ ef.length) :
    asimcard_io_read_binary sim id p1 p2 p3 ≠ "+CRSM: 100,0" := by
  cases hf : asimcard_ef_find sim id with
  | none =>
    rw [read_binary_not_found sim id p1 p2 p3 ((ef_find_none_iff sim id).mp hf)]
    decide
  | some ef =>
    by_cases hp : p1 ≠ 0 ∨ p2 ≠ 0
    · rw [read_binary_incorrect sim id p1 p2 p3 ef hf hp]
      decide
    · have h1 : p1 = 0 := by
        by_contra hn
        exact hp (Or.inl hn)
      have h2 : p2 = 0 := by
        by_contra hn
        exact hp (Or.inr hn)
      rw [h1, h2]
      by_cases ht : ef.type = SIM_FILE_EF_DEDICATED
      · by_cases hl : ef.length < p3
        · have h : asimcard_io_read_binary sim id 0 0 p3 = "+CRSM: 103,0" := by
            unfold asimcard_io_read_binary
            rw [hf]
            show (if (0 : Int) ≠ 0 ∨ (0 : Int) ≠ 0 then _ else _) = _
            rw [if_neg (by decide), if_neg (fun h => h ht), if_pos hl]
            rfl
          rw [h]
          decide
        · rw [read_binary_success sim id p3 ef hf ht (hlen ef hf ht) (by omega)]
          exact normal_ne_execution_error _
      · have h : asimcard_io_read_binary sim id 0 0 p3 = "+CRSM: 106,129" := by
          unfold asimcard_io_read_binary
          rw [hf]
          show (if (0 : Int) ≠ 0 ∨ (0 : Int) ≠ 0 then _ else _) = _
          rw [if_neg (by decide), if_pos ht]
          rfl
        rw [h]
        decide

/-- C23: on every file store of the data model, where the length of a
Dedicated file is a byte count and so not negative, neither READ_BINARY nor
READ_RECORD answers "+CRSM: 100,0", for all integers id, p1, p2, p3: when a
handler calls its read helper the type is right and, for READ_RECORD, the
record id narrowed to a byte is p1 itself and not above rec_count, so the
helper returns a count that is not negative. -/
theorem execution_error_unreachable (sim : ASimCardRec) (id p1 p2 p3 : Int)
    (hlen : ∀ ef ∈ sim.efs, ef.type = SIM_FILE_EF_DEDICATED → 0 ≤ ef.length) :
    asimcard_io_read_binary sim id p1 p2 p3 ≠ "+CRSM: 100,0" ∧
    asimcard_io_read_record sim id p1 p2 p3 ≠ "+CRSM: 100,0" ∧
    (∀ ef, asimcard_ef_find sim id = some ef → ef.type = SIM_FILE_EF_DEDICATED →
      ¬ ((asimcard_ef_read_dedicated (some ef)).1 < 0)) ∧
    (∀ ef, asimcard_ef_find sim id = some ef → ef.type = SIM_FILE_EF_LINEAR →
      0 < p1 → p1 ≤ (ef.rec_count.val : Int) →
      (((int_to_byte p1).val : Nat) : Int) = p1 ∧
      ¬ ((asimcard_ef_read_linear (some ef) (int_to_byte p1)).1 < 0)) := by
  refine ⟨?_, read_record_no_execution_error sim id p1 p2 p3, ?_, ?_⟩
  · exact read_binary_no_execution_error sim id p1 p2 p3
      (fun ef hf ht => hlen ef (ef_find_some sim id ef hf).1 ht)
  · intro ef hf ht
    have hpos : 0 ≤ ef.length := hlen ef (ef_find_some sim id ef hf).1 ht
    have hrd : asimcard_ef_read_dedicated (some ef)
        = (ef.length, gsm_hex_from_bytes ef.data ef.length) := by
      unfold asimcard_ef_read_dedicated
      show (if ef.type ≠ SIM_FILE_EF_DEDICATED then _ else _) = _
      rw [if_neg (fun h => h ht)]
    rw [hrd]
    show ¬ (ef.length < 0)
    omega
  · intro ef _ ht h1 hc
    have hlt : ef.rec_count.val < 256 := ef.rec_count.isLt
    have hb : (((int_to_byte p1).val : Nat) : Int) = p1 :=
      int_to_byte_val p1 (by omega) (by omega)
    refine ⟨hb, ?_⟩
    rw [read_linear_in_range ef (int_to_byte p1) ht (by omega)]
    show ¬ ((ef.rec_len.val : Int) < 0)
    omega

/-- The statement on `sample_card`, whose Dedicated file has the length 4. -/
theorem execution_error_unreachable_witness :
    asimcard_io_read_binary sample_card 28589 0 0 4 ≠ "+CRSM: 100,0" ∧
    asimcard_io_read_record sample_card 28474 1 4 32 ≠ "+CRSM: 100,0" :=
  ⟨(execution_error_unreachable sample_card 28589 0 0 4 sample_card_lengths).1,
   (execution_error_unreachable sample_card 28474 1 4 32 sample_card_lengths).2.1⟩

/-! ## Theorems: the length of the responses -/

/-- READ_RECORD on a Linear file in absolute mode with p1 in [1, rec_count]
and p3 within rec_len: the normal ending followed by the hex of the record. -/
theorem read_record_success (sim : ASimCardRec) (id p1 p3 : Int) (ef : SimFileRec)
    (hf : asimcard_ef_find sim id = some ef) (ht : ef.type = SIM_FILE_EF_LINEAR)
    (h1 : 1 ≤ p1) (hc : p1 ≤ (ef.rec_count.val : Int)) (hl : p3 ≤ (ef.rec_len.val : Int)) :
    asimcard_io_read_record sim id p1 4 p3
      = "+CRSM: 144,0," ++ gsm_hex_from_bytes
          (fun off => ef.records (((p1 - 1) * (ef.rec_len.val : Int)) + off))
          (ef.rec_len.val : Int) := by
  have hlt : ef.rec_count.val < 256 := ef.rec_count.isLt
  have hb : (((int_to_byte p1).val : Nat) : Int) = p1 := int_to_byte_val p1 (by omega) (by omega)
  have hrl := read_linear_in_range ef (int_to_byte p1) ht (by omega)
  rw [hb] at hrl
  unfold asimcard_io_read_record
  rw [hf]
  show (if (4 : Int) ≠ (4 : Int) ∨ p1 ≤ 0 then _ else _) = _
  rw [if_neg (by rintro (h | h); exact h rfl; omega), if_neg (fun h => h ht),
    if_neg (by omega), if_neg (by omega)]
  simp only [hrl]
  rw [if_neg (by omega)]
  rfl

/-- A response made of the normal ending and a payload starts with the 13
characters of the normal ending. -/
theorem normal_start (payload : String) :
    ("+CRSM: 144,0," ++ payload).data.take 13 = "+CRSM: 144,0,".data := rfl

/-- C24, the code on long files: a successful READ_BINARY response has
13 + 2 x length characters and a successful READ_RECORD response has
13 + 2 x rec_len characters, so on `long_files_card` the Dedicated file of 122
bytes gives 257 characters and the Linear file with records of 255 bytes gives
523 characters, more than the 255 that fit in `out_buff`. -/
theorem response_exceeds_buffer :
    (∀ (sim : ASimCardRec) (id p3 : Int) (ef : SimFileRec),
      asimcard_ef_find sim id = some ef → ef.type = SIM_FILE_EF_DEDICATED →
      0 ≤ p3 → p3 ≤ ef.length →
      (asimcard_io_read_binary sim id 0 0 p3).length = 13 + 2 * ef.length.toNat) ∧
    (∀ (sim : ASimCardRec) (id p1 p3 : Int) (ef : SimFileRec),
      asimcard_ef_find sim id = some ef → ef.type = SIM_FILE_EF_LINEAR →
      1 ≤ p1 → p1 ≤ (ef.rec_count.val : Int) → p3 ≤ (ef.rec_len.val : Int) →
      (asimcard_io_read_record sim id p1 4 p3).length = 13 + 2 * ef.rec_len.val) ∧
    (asimcard_io_read_binary long_files_card 20226 0 0 122).length = 257 ∧
    (asimcard_io_read_binary long_files_card 20226 0 0 0).data.take 13 = "+CRSM: 144,0,".data ∧
    (asimcard_io_read_record long_files_card 28613 1 4 255).length = 523 ∧
    (asimcard_io_read_record long_files_card 28613 1 4 255).data.take 13
      = "+CRSM: 144,0,".data ∧
    ¬ (257 ≤ 255) := by
  have hbin : ∀ (sim : ASimCardRec) (id p3 : Int) (ef : SimFileRec),
      asimcard_ef_find sim id = some ef → ef.type = SIM_FILE_EF_DEDICATED →
      0 ≤ p3 → p3 ≤ ef.length →
      (asimcard_io_read_binary sim id 0 0 p3).length = 13 + 2 * ef.length.toNat := by
    intro sim id p3 ef hf ht h0 h3
    rw [read_binary_success sim id p3 ef hf ht (by omega) h3, String.length_append,
      gsm_hex_from_bytes_length]
    rfl
  have hrec : ∀ (sim : ASimCardRec) (id p1 p3 : Int) (ef : SimFileRec),
      asimcard_ef_find sim id = some ef → ef.type = SIM_FILE_EF_LINEAR →
      1 ≤ p1 → p1 ≤ (ef.rec_count.val : Int) → p3 ≤ (ef.rec_len.val : Int) →
      (asimcard_io_read_record sim id p1 4 p3).length = 13 + 2 * ef.rec_len.val := by
    intro sim id p1 p3 ef hf ht h1 hc hl
    rw [read_record_success sim id p1 p3 ef hf ht h1 hc hl, String.length_append,
      gsm_hex_from_bytes_length]
    rfl
  refine ⟨hbin, hrec, ?_, ?_, ?_, ?_, by decide⟩
  · exact hbin long_files_card 20226 122
      { type := SIM_FILE_EF_DEDICATED, id := 20226, flags := 0, data := fun _ => 0,
        length := 122, rec_count := 0, rec_len := 0, records := fun _ => 0 }
      rfl rfl (by decide) (by decide)
  · rw [read_binary_success long_files_card 20226 0
      { type := SIM_FILE_EF_DEDICATED, id := 20226, flags := 0, data := fun _ => 0,
        length := 122, rec_count := 0, rec_len := 0, records := fun _ => 0 }
      rfl rfl (by decide) (by decide)]
    exact normal_start _
  · exact hrec long_files_card 28613 1 255
      { type := SIM_FILE_EF_LINEAR, id := 28613, flags := 0, data := fun _ => 0,
        length := 0, rec_count := 1, rec_len := 255, records := fun _ => 255 }
      rfl rfl (by decide) (by decide) (by decide)
  · rw [read_record_success long_files_card 28613 1 255
      { type := SIM_FILE_EF_LINEAR, id := 28613, flags := 0, data := fun _ => 0,
        length := 0, rec_count := 1, rec_len := 255, records := fun _ => 255 }
      rfl rfl (by decide) (by decide) (by decide)]
    exact normal_start _

/-! ## Theorems: one number per device -/

/-- The MSISDN record response of a card whose port is n >= 0, before the cut
of `snprintf`. -/
theorem msisdn_general (sim : ASimCardRec) (n : Nat) (hn : sim.port = (n : Int)) :
    asimcard_io false sim "+CRSM=178,28480,1,4,32"
      = some (snprintf 256 (String.mk (msisdn_chars (Nat.digitChar (n / 1000 % 10))
          (fmt_d (sim.instance_id + 1)) (Nat.digitChar (n / 10 % 10))
          (Nat.digitChar (n / 100 % 10)) (Nat.digitChar (n % 10))))) := by
  have e1 : Int.tmod (Int.tdiv (n : Int) 1000) 10 = ((n / 1000 % 10 : Nat) : Int) := rfl
  have e3 : Int.tmod (Int.tdiv (n : Int) 10) 10 = ((n / 10 % 10 : Nat) : Int) := rfl
  have e4 : Int.tmod (Int.tdiv (n : Int) 100) 10 = ((n / 100 % 10 : Nat) : Int) := rfl
  have e5 : Int.tmod (n : Int) 10 = ((n % 10 : Nat) : Int) := rfl
  have hstart : ¬ (("+CRSM=178,28480,1,4,32" : String).data.take 6 ≠ "+CRSM=".data) := by
    decide
  have hf : ("f" : String).data = ['f'] := rfl
  unfold asimcard_io
  rw [if_neg hstart]
  show (if "+CRSM=178,28480,1,4,32" = "+CRSM=178,28480,1,4,32" then _ else _) = _
  rw [if_pos rfl, hn, e1, e3, e4, e5,
    fmt_d_digit _ (Nat.mod_lt _ (by decide)), fmt_d_digit _ (Nat.mod_lt _ (by decide)),
    fmt_d_digit _ (Nat.mod_lt _ (by decide)), fmt_d_digit _ (Nat.mod_lt _ (by decide))]
  congr 2
  apply String.ext
  unfold msisdn_chars
  simp only [String.data_append, List.append_assoc, List.singleton_append, List.cons_append,
    List.nil_append, hf]

/-- Two integers with the same decimal text are equal. -/
theorem fmt_d_injective (v w : Int) (h : fmt_d v = fmt_d w) : v = w := by
  have hv := scan_decimal_fmt_d v [] (fun c t hct => absurd hct (by simp))
  have hw := scan_decimal_fmt_d w [] (fun c t hct => absurd hct (by simp))
  rw [h, hw] at hv
  exact ((Prod.mk.inj (Option.some.inj hv)).1).symm

/-- The decimal text of an `int` has at most 11 characters. -/
theorem fmt_d_length_le (v : Int) (h0 : -2147483648 ≤ v) (h1 : v ≤ 2147483647) :
    (fmt_d v).length ≤ 11 := by
  cases v with
  | ofNat n =>
    have hn : n < 10 ^ 10 := by
      have : (n : Int) ≤ 2147483647 := h1
      omega
    have hl := Nat.repr_length n 10 (by decide) hn
    show (Nat.repr n).length ≤ 11
    omega
  | negSucc m =>
    have hm : m + 1 < 10 ^ 10 := by
      have hneg : -2147483648 ≤ -((m : Int) + 1) := by
        rw [← Int.negSucc_eq]
        exact h0
      omega
    have hl := Nat.repr_length (m + 1) 10 (by decide) hm
    show ("-" ++ Nat.repr (m + 1)).length ≤ 11
    rw [String.length_append]
    show 1 + (Nat.repr (m + 1)).length ≤ 11
    omega

/-- A text of at most 255 characters is not cut by `snprintf` in a buffer of
256. -/
theorem snprintf_short (text : String) (h : text.length ≤ 255) : snprintf 256 text = text := by
  cases text with
  | mk l =>
    show String.mk (l.take 255) = String.mk l
    rw [List.take_of_length_le h]

/-- The length of the characters of an MSISDN record response. -/
theorem msisdn_chars_length (c1 : Char) (second : String) (c3 c4 c5 : Char) :
    (msisdn_chars c1 second c3 c4 c5).length = 76 + second.length := by
  have hgen : ∀ p f : List Char,
      (p ++ (c1 :: (second.data ++ (c3 :: c4 :: 'f' :: c5 :: f)))).length
        = p.length + f.length + 5 + second.data.length := by
    intro p f
    simp only [List.length_append, List.length_cons]
    omega
  unfold msisdn_chars
  rw [hgen]
  rfl

/-- Equal characters of two MSISDN record responses: the digits and the text
of instance_id + 1 are equal. -/
theorem msisdn_chars_inj (c1 c3 c4 c5 d1 d3 d4 d5 : Char) (s t : String)
    (h : msisdn_chars c1 s c3 c4 c5 = msisdn_chars d1 t d3 d4 d5) :
    c1 = d1 ∧ s = t ∧ c3 = d3 ∧ c4 = d4 ∧ c5 = d5 := by
  unfold msisdn_chars at h
  have h1 := List.cons.inj (List.append_cancel_left h)
  obtain ⟨hs, ht⟩ := List.append_inj' h1.2 rfl
  have h3 := List.cons.inj ht
  have h4 := List.cons.inj h3.2
  have h5 := List.cons.inj (List.cons.inj h4.2).2
  exact ⟨h1.1, String.ext hs, h3.1, h4.1, h5.1⟩

/-- Two values below 10 with the same digit character are equal. -/
theorem digitChar_inj (a b : Nat) (ha : a < 10) (hb : b < 10)
    (h : Nat.digitChar a = Nat.digitChar b) : a = b := by
  have va := (digitChar_digit a ha).2
  have vb := (digitChar_digit b hb).2
  rw [h] at va
  omega

/-- The MSISDN record response of a card whose port is n >= 0 and whose
instance id is an `int` below INT_MAX. -/
theorem msisdn_uncut (sim : ASimCardRec) (n : Nat) (hn : sim.port = (n : Int))
    (hi : -2147483648 ≤ sim.instance_id ∧ sim.instance_id < 2147483647) :
    asimcard_io false sim "+CRSM=178,28480,1,4,32"
      = some (String.mk (msisdn_chars (Nat.digitChar (n / 1000 % 10))
          (fmt_d (sim.instance_id + 1)) (Nat.digitChar (n / 10 % 10))
          (Nat.digitChar (n / 100 % 10)) (Nat.digitChar (n % 10)))) := by
  rw [msisdn_general sim n hn, snprintf_short]
  show (msisdn_chars _ _ _ _ _).length ≤ 255
  rw [msisdn_chars_length]
  have := fmt_d_length_le (sim.instance_id + 1) (by omega) (by omega)
  omega

/-- The MSISDN record response as the code formats it from the port and the
instance id of the card; no other field is read. -/
theorem msisdn_of_fields (sim : ASimCardRec) :
    asimcard_io false sim "+CRSM=178,28480,1,4,32"
      = some (snprintf 256
          ("+CRSM: 144,0,ffffffffffffffffffffffffffffffffffff0781515525"
            ++ fmt_d (Int.tmod (Int.tdiv sim.port 1000) 10)
            ++ fmt_d (sim.instance_id + 1)
            ++ fmt_d (Int.tmod (Int.tdiv sim.port 10) 10)
            ++ fmt_d (Int.tmod (Int.tdiv sim.port 100) 10)
            ++ "f"
            ++ fmt_d (Int.tmod sim.port 10)
            ++ "ffffffffffff")) := by
  have hstart : ¬ (("+CRSM=178,28480,1,4,32" : String).data.take 6 ≠ "+CRSM=".data) := by
    decide
  unfold asimcard_io
  rw [if_neg hstart]
  show (if "+CRSM=178,28480,1,4,32" = "+CRSM=178,28480,1,4,32" then _ else _) = _
  rw [if_pos rfl]

/-- C21, as stated, fails: the cards created for the ports 5554 and 15554 as
first device have different (port, instance_id) pairs and the same response to
the MSISDN record command. -/
theorem msisdn_distinct_counterexample :
    (first_card.port, first_card.instance_id) = (5554, 0) ∧
    (far_port_card.port, far_port_card.instance_id) = (15554, 0) ∧
    (first_card.port, first_card.instance_id)
      ≠ (far_port_card.port, far_port_card.instance_id) ∧
    asimcard_io false first_card "+CRSM=178,28480,1,4,32"
      = asimcard_io false far_port_card "+CRSM=178,28480,1,4,32" ∧
    asimcard_io false far_port_card "+CRSM=178,28480,1,4,32"
      = some "+CRSM: 144,0,ffffffffffffffffffffffffffffffffffff07815155255155f4ffffffffffff" := by
  decide

/-- C21, amended: the response to the MSISDN record command is the same for
two cards with the same port and instance id, whatever their status, pin, puk,
retry counter and files; for two cards with ports that are not negative and
instance ids in the range of `int` below INT_MAX, the responses are equal
exactly when the instance ids are equal and the ports are equal modulo 10000,
so two cards with ports in [0, 9999] and different (port, instance_id) pairs
get different responses. -/
theorem msisdn_distinct (sim sim' : ASimCardRec) :
    (sim.port = sim'.port → sim.instance_id = sim'.instance_id →
      asimcard_io false sim "+CRSM=178,28480,1,4,32"
        = asimcard_io false sim' "+CRSM=178,28480,1,4,32") ∧
    (0 ≤ sim.port → 0 ≤ sim'.port →
      (-2147483648 ≤ sim.instance_id ∧ sim.instance_id < 2147483647) →
      (-2147483648 ≤ sim'.instance_id ∧ sim'.instance_id < 2147483647) →
      (asimcard_io false sim "+CRSM=178,28480,1,4,32"
          = asimcard_io false sim' "+CRSM=178,28480,1,4,32" ↔
        (sim.port % 10000 = sim'.port % 10000 ∧ sim.instance_id = sim'.instance_id)) ∧
      (sim.port ≤ 9999 → sim'.port ≤ 9999 →
        (sim.port, sim.instance_id) ≠ (sim'.port, sim'.instance_id) →
        asimcard_io false sim "+CRSM=178,28480,1,4,32"
          ≠ asimcard_io false sim' "+CRSM=178,28480,1,4,32")) := by
  constructor
  · intro hp hi
    rw [msisdn_of_fields sim, msisdn_of_fields sim', hp, hi]
  · intro hp hp' hi hi'
    obtain ⟨n, hn⟩ := Int.eq_ofNat_of_zero_le hp
    obtain ⟨m, hm⟩ := Int.eq_ofNat_of_zero_le hp'
    have hiff : asimcard_io false sim "+CRSM=178,28480,1,4,32"
          = asimcard_io false sim' "+CRSM=178,28480,1,4,32" ↔
        (sim.port % 10000 = sim'.port % 10000 ∧ sim.instance_id = sim'.instance_id) := by
      rw [msisdn_uncut sim n hn hi, msisdn_uncut sim' m hm hi']
      constructor
      · intro h
        have hch := congrArg String.data (Option.some.inj h)
        obtain ⟨h1, hs, h3, h4, h5⟩ := msisdn_chars_inj _ _ _ _ _ _ _ _ _ _ hch
        have g1 := digitChar_inj _ _ (Nat.mod_lt _ (by decide)) (Nat.mod_lt _ (by decide)) h1
        have g3 := digitChar_inj _ _ (Nat.mod_lt _ (by decide)) (Nat.mod_lt _ (by decide)) h3
        have g4 := digitChar_inj _ _ (Nat.mod_lt _ (by decide)) (Nat.mod_lt _ (by decide)) h4
        have g5 := digitChar_inj _ _ (Nat.mod_lt _ (by decide)) (Nat.mod_lt _ (by decide)) h5
        have gi := fmt_d_injective _ _ hs
        refine ⟨?_, by omega⟩
        rw [hn, hm]
        omega
      · rintro ⟨hport, hinst⟩
        rw [hn, hm] at hport
        have g1 : n / 1000 % 10 = m / 1000 % 10 := by omega
        have g3 : n / 10 % 10 = m / 10 % 10 := by omega
        have g4 : n / 100 % 10 = m / 100 % 10 := by omega
        have g5 : n % 10 = m % 10 := by omega
        rw [g1, g3, g4, g5, hinst]
    refine ⟨hiff, ?_⟩
    intro h9 h9' hne heq
    obtain ⟨hport, hinst⟩ := hiff.mp heq
    apply hne
    have hpe : sim.port = sim'.port := by omega
    rw [hpe, hinst]

/-- The amended statement on the first and second device of port 5554 and on
the first devices of the ports 5554 and 5556. -/
theorem msisdn_distinct_witness :
    asimcard_io false (asimcard_create blank_slot 5554 0) "+CRSM=178,28480,1,4,32"
      ≠ asimcard_io false (asimcard_create blank_slot 5554 1) "+CRSM=178,28480,1,4,32" ∧
    asimcard_io false (asimcard_create blank_slot 5554 0) "+CRSM=178,28480,1,4,32"
      ≠ asimcard_io false (asimcard_create blank_slot 5556 0) "+CRSM=178,28480,1,4,32" ∧
    asimcard_io false (asimcard_create blank_slot 5554 0) "+CRSM=178,28480,1,4,32"
      = asimcard_io false
          (asimcard_set_status (asimcard_create relocked_pin_card 5554 0) A_SIM_STATUS_PUK)
          "+CRSM=178,28480,1,4,32" :=
  ⟨((msisdn_distinct (asimcard_create blank_slot 5554 0) (asimcard_create blank_slot 5554 1)).2
      (by decide) (by decide) (by decide) (by decide)).2 (by decide) (by decide) (by decide),
   ((msisdn_distinct (asimcard_create blank_slot 5554 0) (asimcard_create blank_slot 5556 0)).2
      (by decide) (by decide) (by decide) (by decide)).2 (by decide) (by decide) (by decide),
   (msisdn_distinct (asimcard_create blank_slot 5554 0)
      (asimcard_set_status (asimcard_create relocked_pin_card 5554 0) A_SIM_STATUS_PUK)).1
      rfl rfl⟩

end SimCard
